import Mathlib

/-
Verification development for `cms/plugin_rendering.py` (django-cms content and
structure rendering).

The Python module is shallowly embedded: pure helpers become Lean functions,
the request-scoped renderer state (`BaseRenderer.__init__` line 83-92 plus the
toolbar's `_cache_disabled` flag) becomes an explicit `RendererState` record
threaded through every operation, and the external collaborators listed in the
spec (external cache store, content-loading collaborator, template engine,
toolbar collaborator) become an opaque `Env` of functions.  Python exceptions
(`PlaceholderNotFound`, uncaught `KeyError`) become `Except` results.  An
event trace is carried in the state so that observable interactions with the
collaborators (external cache gets/sets, bulk plugin assignment, context
push/pop, edit-mode wrapping, fallback-nodelist rendering) can be stated and
proved about.
-/

set_option maxRecDepth 4096

/-- Plugin content node: a type-carrying node with an ordered list of child
plugins (`plugin.child_plugin_instances` in the source; Python `None` and the
empty list are both modelled by `[]`, matching the truthiness tests used by
the source).  The `pk` also stands in for `plugin_type`/identity. -/
inductive Plugin : Type where
  | node (pk : Nat) (children : List Plugin) : Plugin

/-- Primary key of a plugin. -/
def Plugin.pk : Plugin → Nat
  | .node pk _ => pk

/-- The `child_plugin_instances` attribute of a plugin. -/
def Plugin.child_plugin_instances : Plugin → List Plugin
  | .node _ children => children

mutual

/-- Embedding of `_unpack_plugins` (plugin_rendering.py lines 45-53): collects
every descendant of `parent_plugin` (excluding `parent_plugin` itself), each
child followed by its own unpacked subtree, in the stored child order. -/
def unpack_plugins (parent_plugin : Plugin) : List Plugin :=
  match parent_plugin with
  | .node _ children => unpack_plugins_loop children

/-- The `for plugin in parent_plugin.child_plugin_instances` loop body of
`_unpack_plugins`: append the child, then (when it has children) extend with
the child's own unpacked descendants. -/
def unpack_plugins_loop (plugins : List Plugin) : List Plugin :=
  match plugins with
  | [] => []
  | plugin :: rest =>
      (plugin :: (if plugin.child_plugin_instances.isEmpty then []
                  else unpack_plugins plugin)) ++ unpack_plugins_loop rest

end

/-- Embedding of `StructureRenderer.get_plugins_to_render` (lines 618-628):
for each root-level plugin, yield the plugin and then, when it has children,
every plugin produced by `_unpack_plugins`. -/
def StructureRenderer.get_plugins_to_render (plugins : List Plugin) : List Plugin :=
  (plugins.map (fun plugin =>
      plugin :: (if plugin.child_plugin_instances.isEmpty then []
                 else unpack_plugins plugin))).flatten

mutual

/-- Specification-side definition (spec 4.1): pre-order depth-first traversal
of one plugin: the node is emitted immediately before its children, and its
children are traversed in their stored order. -/
def specPreorder (p : Plugin) : List Plugin :=
  match p with
  | .node pk children => .node pk children :: specPreorderList children

/-- Pre-order traversal of a forest, left to right. -/
def specPreorderList (l : List Plugin) : List Plugin :=
  match l with
  | [] => []
  | p :: rest => specPreorder p ++ specPreorderList rest

end

/-- The guard `if plugin.child_plugin_instances` in the source is redundant:
unpacking a childless plugin already yields `[]`. -/
theorem unpack_if_eq (p : Plugin) :
    (if p.child_plugin_instances.isEmpty then [] else unpack_plugins p)
      = unpack_plugins p := by
  cases p with
  | node pk children =>
    cases children with
    | nil => simp [Plugin.child_plugin_instances, unpack_plugins, unpack_plugins_loop]
    | cons c rest => simp [Plugin.child_plugin_instances]

mutual

/-- A plugin followed by its unpacked descendants is exactly its pre-order
traversal. -/
theorem unpack_eq_preorder (p : Plugin) :
    p :: unpack_plugins p = specPreorder p := by
  match p with
  | .node pk children =>
    simp only [unpack_plugins, specPreorder]
    exact congrArg (Plugin.node pk children :: ·) (unpack_loop_eq_preorderList children)

/-- The `_unpack_plugins` loop over a forest is exactly the pre-order
traversal of that forest. -/
theorem unpack_loop_eq_preorderList (l : List Plugin) :
    unpack_plugins_loop l = specPreorderList l := by
  match l with
  | [] => simp [unpack_plugins_loop, specPreorderList]
  | p :: rest =>
    simp only [unpack_plugins_loop, specPreorderList, unpack_if_eq p,
      unpack_loop_eq_preorderList rest]
    rw [← unpack_eq_preorder p]

end

mutual

/-- Number of nodes in one plugin tree. -/
def pluginCount (p : Plugin) : Nat :=
  match p with
  | .node _ children => 1 + pluginCountList children

/-- Number of nodes in a forest of plugin trees. -/
def pluginCountList (l : List Plugin) : Nat :=
  match l with
  | [] => 0
  | p :: rest => pluginCount p + pluginCountList rest

end

/-- Pre-order traversal emits exactly as many entries as the forest has
nodes (so, together with `unpack_loop_eq_preorderList`, each descendant is
emitted exactly once). -/
theorem specPreorderList_length (l : List Plugin) :
    (specPreorderList l).length = pluginCountList l := by
  match l with
  | [] => simp [specPreorderList, pluginCountList]
  | p :: rest =>
    match p with
    | .node pk children =>
      simp only [specPreorderList, specPreorder, pluginCountList, pluginCount,
        List.length_append, List.length_cons]
      rw [specPreorderList_length children, specPreorderList_length rest]
      omega

/-- Example tree from the spec: `A[B[D,E],C]` with pks A=1, B=2, D=4, E=5,
C=3. -/
def examplePluginA : Plugin :=
  .node 1 [.node 2 [.node 4 [], .node 5 []], .node 3 []]

/-- Claim C7: the flattening used by the Structure Renderer emits every
descendant exactly once in pre-order depth-first order (it coincides with the
specification-side pre-order traversal, which by construction emits each node
immediately before its children, children in stored order, and emits exactly
one entry per node), and the tree `A[B[D,E],C]` flattens to `A,B,D,E,C`. -/
theorem C7_structure_flatten_preorder :
    (∀ roots : List Plugin,
        StructureRenderer.get_plugins_to_render roots = specPreorderList roots)
      ∧ (∀ roots : List Plugin,
        (StructureRenderer.get_plugins_to_render roots).length = pluginCountList roots)
      ∧ (StructureRenderer.get_plugins_to_render [examplePluginA]).map Plugin.pk
          = [1, 2, 4, 5, 3] := by
  have main : ∀ roots : List Plugin,
      StructureRenderer.get_plugins_to_render roots = specPreorderList roots := by
    intro roots
    induction roots with
    | nil => simp [StructureRenderer.get_plugins_to_render, specPreorderList]
    | cons p rest ih =>
      have step : StructureRenderer.get_plugins_to_render (p :: rest)
          = (p :: unpack_plugins p) ++ StructureRenderer.get_plugins_to_render rest := by
        simp [StructureRenderer.get_plugins_to_render, unpack_if_eq p]
      rw [step, ih, unpack_eq_preorder p]
      simp [specPreorderList]
  refine ⟨main, ?_, ?_⟩
  · intro roots
    rw [main roots, specPreorderList_length]
  · decide

/-- Declared-placeholder metadata from the page template (`get_declared_placeholders`
entries): slot name and whether the slot participates in inheritance
(`pl.inherit`). -/
structure DeclaredPlaceholder : Type where
  slot : String
  inherit : Bool
deriving DecidableEq

/-- Placeholder instance.  `plugins_cache` models the transient
`_plugins_cache` attribute attached by `assign_plugins`: `none` means the
attribute is absent ("not yet resolved"), `some l` means it was assigned
(possibly the empty tree), matching the `getattr`/`AttributeError` tests in
the source. -/
structure Placeholder : Type where
  pk : Nat
  slot : String
  cache_placeholder : Bool
  default_width : Option Nat
  plugins_cache : Option (List Plugin)

/-- Django model equality for placeholders (used by `RenderedPlaceholder.__eq__`):
two placeholder rows are equal when their primary keys are equal. -/
def Placeholder.modelEq (a b : Placeholder) : Bool :=
  a.pk == b.pk

/-- A content record in the external placeholder cache:
`{'content': ..., 'sekizai': ...}` (the sekizai data is opaque deferred-asset
bookkeeping). -/
structure CachedValue : Type where
  content : String
  sekizai : List String
deriving DecidableEq

/-- Page tree node.  The parent is embedded (`page.parent`); `parent_id` is
derived from it.  `placeholders` models both `page.get_placeholders()` and
`page.rescan_placeholders().values()` (the persistence collaborator);
`declared` models `page.get_declared_placeholders()`.  Cycles are impossible
by construction. -/
inductive Page : Type where
  | mk (pk : Nat) (parent : Option Page) (template : String)
      (placeholders : List Placeholder) (declared : List DeclaredPlaceholder) : Page

/-- Primary key of a page. -/
def Page.pk : Page → Nat
  | .mk pk _ _ _ _ => pk

/-- Embedded parent page (`page.parent`). -/
def Page.parent : Page → Option Page
  | .mk _ parent _ _ _ => parent

/-- `page.parent_id`, derived from the embedded parent. -/
def Page.parent_id (p : Page) : Option Nat :=
  p.parent.map Page.pk

/-- `page.get_template()` (per-language template selection is folded into the
collaborator-provided string). -/
def Page.get_template : Page → String
  | .mk _ _ template _ _ => template

/-- The page's placeholder instances (persistence collaborator). -/
def Page.placeholders : Page → List Placeholder
  | .mk _ _ _ placeholders _ => placeholders

/-- `page.get_declared_placeholders()`. -/
def Page.declared : Page → List DeclaredPlaceholder
  | .mk _ _ _ _ declared => declared

/-- Embedding of `_get_page_ancestors` (lines 29-42): the chain of ancestors
of a page, nearest first.  The Python generator yields `page.parent` and
then recurses; a page without `parent_id` stops the generator via
`raise StopIteration`, the Python-2-compatible idiom this module targets
(under PEP 479, Python 3.7+, that same line would surface as a
`RuntimeError`; the embedding models the termination semantics the source
was written for). -/
def get_page_ancestors : Page → List Page
  | .mk _ none _ _ _ => []
  | .mk _ (some parent) _ _ _ => parent :: get_page_ancestors parent

/-- Embedding of the `RenderedPlaceholder` record (lines 56-77). -/
structure RenderedPlaceholder : Type where
  placeholder : Placeholder
  language : String
  site_id : Nat
  cached : Bool
  editable : Bool

/-- `RenderedPlaceholder.__eq__` (lines 66-70): the same placeholder rendered
with different parameters is considered the same; only the placeholder
identities are compared. -/
def RenderedPlaceholder.eq (a b : RenderedPlaceholder) : Bool :=
  Placeholder.modelEq a.placeholder b.placeholder

/-- `RenderedPlaceholder.__hash__` (lines 75-76): the hash of the underlying
placeholder identity alone. -/
def RenderedPlaceholder.hashKey (a : RenderedPlaceholder) : Nat :=
  a.placeholder.pk

/-- Observable interactions of the renderer with its collaborators and with
the caller's template context, recorded in order of occurrence. -/
inductive REvent : Type where
  | extCacheGet (pk : Nat) (lang : String) (site : Nat) : REvent
  | extCacheSet (pk : Nat) (lang : String) (site : Nat)
      (content : String) (sekizai : List String) : REvent
  | assignPlugins (pks : List Nat) (lang : String) (isFallback : Bool) : REvent
  | ctxPush : REvent
  | ctxPop : REvent
  | editWrap (pk : Nat) : REvent
  | fallbackRender (pk : Nat) : REvent
deriving DecidableEq

/-- Does an event denote a consultation of or a write to the external cache
store? -/
def REvent.isExternalCache : REvent → Bool
  | .extCacheGet _ _ _ => true
  | .extCacheSet _ _ _ _ _ => true
  | _ => false

/-- Is the event a consultation (`get_placeholder_cache`) of the external
cache store? -/
def REvent.isExternalCacheGet : REvent → Bool
  | .extCacheGet _ _ _ => true
  | _ => false

/-- Is the event a context-stack push? -/
def REvent.isCtxPush : REvent → Bool
  | .ctxPush => true
  | _ => false

/-- Is the event a context-stack pop? -/
def REvent.isCtxPop : REvent → Bool
  | .ctxPop => true
  | _ => false

/-- Is the event an edit-mode wrap or a fallback-nodelist render? -/
def REvent.isWrapOrFallback : REvent → Bool
  | .editWrap _ => true
  | .fallbackRender _ => true
  | _ => false

/-- Is the event a bulk plugin assignment (fresh content load)? -/
def REvent.isAssign : REvent → Bool
  | .assignPlugins _ _ _ => true
  | _ => false

/-- External collaborators (spec section 6), given as opaque functions:
the external cache store, the content-loading collaborator (both the bulk
`assign_plugins` and the per-placeholder load inside
`cms.utils.plugins.get_plugins` go to the same store, keyed by placeholder
pk, language and the `is_fallback` flag), the plugin polymorphic contract
(whether a concrete instance exists, whether its class participates in
rendering, the markup the template engine plus processors produce for it, the
deferred-asset entries it registers), the `CMS_PLACEHOLDER_CONF` extra
context, and the toolbar collaborator's JS descriptors. -/
structure Env : Type where
  get_placeholder_cache : Nat → String → Nat → Option CachedValue
  assign_plugins : Nat → String → Bool → List Plugin
  has_instance : Nat → Bool
  render_plugin_flag : Nat → Bool
  plugin_output : Nat → String
  plugin_sekizai : Nat → List String
  get_extra_context : String → Option String → List (String × String)
  placeholder_toolbar_js : Nat → String → String
  plugin_toolbar_js : Nat → String

/-- Per-request configuration of a `ContentRenderer`: the request language,
current site, the viewer (`request.user.is_staff`), the toolbar's
`edit_mode_active` flag, the `CMS_PLACEHOLDER_CACHE` setting, the resolved
`request.current_page`, and the collaborators. -/
structure Renderer : Type where
  request_language : String
  site_id : Nat
  is_staff : Bool
  edit_mode_active : Bool
  placeholder_cache_setting : Bool
  current_page : Option Page
  env : Env

/-- `self._placeholders_are_editable = bool(self.toolbar.edit_mode_active)`
(line 207). -/
def Renderer.placeholders_are_editable (r : Renderer) : Bool :=
  r.edit_mode_active

/-- Request-scoped mutable renderer state.  `contentCache` is
`_placeholders_content_cache`, flattened from the nested
site-then-language-then-pk dictionaries to a single association list keyed by
the (site, language, pk) triple (the nesting is only `setdefault` navigation,
every read and write goes through a full path).  `pagesCache` is
`_placeholders_by_page_cache` (page pk to slot-indexed placeholders);
`renderedPlaceholders` is the `_rendered_placeholders` deque;
`renderedPluginsByPlaceholder` is the `plugins` entry of
`_rendered_plugins_by_placeholder`; `cacheDisabled` is the toolbar's
`_cache_disabled` flag; `trace` is the observation log. -/
structure RendererState : Type where
  contentCache : List ((Nat × String × Nat) × CachedValue)
  pagesCache : List (Nat × List (String × Placeholder))
  renderedPlaceholders : List RenderedPlaceholder
  renderedPluginsByPlaceholder : List (Nat × List Plugin)
  cacheDisabled : Bool
  trace : List REvent

/-- Fresh request-scoped state (`BaseRenderer.__init__`, with the toolbar's
cache flag still enabled). -/
def RendererState.initial : RendererState :=
  { contentCache := [], pagesCache := [], renderedPlaceholders := [],
    renderedPluginsByPlaceholder := [], cacheDisabled := false, trace := [] }

/-- Append one observation to the trace. -/
def RendererState.log (st : RendererState) (e : REvent) : RendererState :=
  { st with trace := st.trace ++ [e] }

/-- Lookup in the request-scoped external-cache memo. -/
def lookupContent (st : RendererState) (key : Nat × String × Nat) : Option CachedValue :=
  (st.contentCache.find? (fun e => e.1 == key)).map (fun e => e.2)

/-- Lookup of a page's primed slot index (`page.pk in _placeholders_by_page_cache`
and `_placeholders_by_page_cache[page.pk]`). -/
def lookupPages (st : RendererState) (pk : Nat) : Option (List (String × Placeholder)) :=
  (st.pagesCache.find? (fun e => e.1 == pk)).map (fun e => e.2)

/-- Lookup of a slot inside a primed per-page index. -/
def lookupSlot (idx : List (String × Placeholder)) (slot : String) : Option Placeholder :=
  (idx.find? (fun e => e.1 == slot)).map (fun e => e.2)

/-- Plugins recorded so far for a placeholder
(`get_rendered_plugins_cache(placeholder)['plugins']`, lines 174-180). -/
def RendererState.renderedPluginsFor (st : RendererState) (pk : Nat) : List Plugin :=
  ((st.renderedPluginsByPlaceholder.find? (fun e => e.1 == pk)).map (fun e => e.2)).getD []

/-- Record a plugin rendered in editable mode for its placeholder
(`placeholder_cache.setdefault('plugins', []).append(instance)`, line 456). -/
def RendererState.addRenderedPlugin (st : RendererState) (pk : Nat) (p : Plugin) : RendererState :=
  { st with renderedPluginsByPlaceholder :=
      (pk, st.renderedPluginsFor pk ++ [p]) :: st.renderedPluginsByPlaceholder }

/-- The caller's template context: a stack of variable frames (most recent
first, as pushed by `context.push()`) plus the request's sekizai
(deferred-asset) data, which in Django lives outside the variable frames. -/
structure Ctx : Type where
  stack : List (List (String × String))
  sekizai : List String
deriving DecidableEq

/-- `context.push()`: a fresh empty frame on top. -/
def Ctx.push (c : Ctx) : Ctx :=
  { c with stack := [] :: c.stack }

/-- `context.pop()`: drop the top frame. -/
def Ctx.pop (c : Ctx) : Ctx :=
  { c with stack := c.stack.tail }

/-- `key in context`: does any frame bind the key? -/
def Ctx.containsKey (c : Ctx) (k : String) : Bool :=
  c.stack.any (fun f => f.any (fun kv => kv.1 == k))

/-- `context[key] = value`: bind in the top frame. -/
def Ctx.set (c : Ctx) (k v : String) : Ctx :=
  match c.stack with
  | [] => { c with stack := [[(k, v)]] }
  | f :: r => { c with stack := ((k, v) :: f) :: r }

/-- Embedding of `ContentRenderer.placeholder_cache_is_enabled` (lines
209-214): false when the `CMS_PLACEHOLDER_CACHE` setting is off, false for
staff viewers, and otherwise the negation of the active edit session. -/
def ContentRenderer.placeholder_cache_is_enabled (r : Renderer) : Bool :=
  if !r.placeholder_cache_setting then false
  else if r.is_staff then false
  else !r.placeholders_are_editable

/-- Embedding of `ContentRenderer._get_cached_placeholder_content` (lines
470-494).  When the (site, language, pk) key misses the request memo, the
external cache collaborator is queried; the result is memoized only when it
is not `None` ("None means nothing in the cache"); the memo entry (possibly
still absent) is then returned. -/
def ContentRenderer.get_cached_placeholder_content (r : Renderer) (st : RendererState)
    (placeholder : Placeholder) (language : String) :
    Option CachedValue × RendererState :=
  let key : Nat × String × Nat := (r.site_id, language, placeholder.pk)
  if (lookupContent st key).isNone then
    let st := st.log (.extCacheGet placeholder.pk language r.site_id)
    match r.env.get_placeholder_cache placeholder.pk language r.site_id with
    | some cached_value =>
        let st := { st with contentCache := (key, cached_value) :: st.contentCache }
        (lookupContent st key, st)
    | none => (lookupContent st key, st)
  else (lookupContent st key, st)

/-- The `plugin_edit_template` wrapper of `ContentRenderer` (lines 194-198),
as a string formatter. -/
def pluginEditTemplate (pk : Nat) (content : String) : String :=
  "<template class=\"cms-plugin cms-plugin-start cms-plugin-" ++ toString pk
    ++ "\"></template>" ++ content
    ++ "<template class=\"cms-plugin cms-plugin-end cms-plugin-" ++ toString pk
    ++ "\"></template>"

/-- The `placeholder_edit_template` wrapper of `ContentRenderer` (lines
199-203), as a string formatter. -/
def placeholderEditTemplate (content plugin_js placeholder_js : String) (pk : Nat) : String :=
  content ++ " <div class=\"cms-placeholder cms-placeholder-" ++ toString pk
    ++ "\"></div> <script data-cms>" ++ plugin_js ++ "\n" ++ placeholder_js
    ++ "</script>"

/-- Embedding of `ContentRenderer.render_plugin` (lines 426-457).  The
polymorphic instance lookup, the plugin's own `render`, the template engine
and the post-processing hooks are collaborators (`Env`); a plugin without a
concrete instance, or whose class opts out of rendering, contributes the
empty string.  In editable mode the output is wrapped with the plugin edit
markers and the instance is recorded for the placeholder's toolbar
bookkeeping. -/
def ContentRenderer.render_plugin (r : Renderer) (st : RendererState) (ctx : Ctx)
    (inst : Plugin) (placeholder : Placeholder) (editable : Bool) :
    String × RendererState × Ctx :=
  if !(r.env.has_instance inst.pk && r.env.render_plugin_flag inst.pk) then
    ("", st, ctx)
  else
    let content := r.env.plugin_output inst.pk
    let ctx := { ctx with sekizai := ctx.sekizai ++ r.env.plugin_sekizai inst.pk }
    if editable then
      (pluginEditTemplate inst.pk content,
       st.addRenderedPlugin placeholder.pk inst, ctx)
    else (content, st, ctx)

/-- The `for plugin in plugins` generator loop of
`ContentRenderer.render_plugins` (lines 466-468), fully consumed in order by
`''.join`. -/
def ContentRenderer.render_plugin_list (r : Renderer) (placeholder : Placeholder)
    (editable : Bool) :
    List Plugin → RendererState → Ctx → List String × RendererState × Ctx
  | [], st, ctx => ([], st, ctx)
  | plugin :: rest, st, ctx =>
      let out := ContentRenderer.render_plugin r st ctx plugin placeholder editable
      let outs := ContentRenderer.render_plugin_list r placeholder editable rest
        out.2.1 out.2.2
      (out.1 :: outs.1, outs.2.1, outs.2.2)

/-- Model of the `cms.utils.plugins.get_plugins` collaborator used by
`BaseRenderer.get_plugins_to_render` (lines 163-172) in content mode: the
placeholder's prefetched `_plugins_cache` tree when present, otherwise a
fresh load from the content-loading collaborator. -/
def ContentRenderer.get_plugins_to_render (r : Renderer) (placeholder : Placeholder)
    (language : String) : List Plugin :=
  match placeholder.plugins_cache with
  | some plugins => plugins
  | none => r.env.assign_plugins placeholder.pk language false

/-- Embedding of `ContentRenderer.render_plugins` (lines 459-468). -/
def ContentRenderer.render_plugins (r : Renderer) (st : RendererState) (ctx : Ctx)
    (placeholder : Placeholder) (language : String) (editable : Bool) :
    List String × RendererState × Ctx :=
  ContentRenderer.render_plugin_list r placeholder editable
    (ContentRenderer.get_plugins_to_render r placeholder language) st ctx

/-- Embedding of `ContentRenderer.get_editable_placeholder_context` (lines
313-327): the joined per-plugin toolbar JS for the plugins recorded in this
pass, and the placeholder-level toolbar JS from the toolbar collaborator. -/
def ContentRenderer.get_editable_placeholder_context (r : Renderer) (st : RendererState)
    (placeholder : Placeholder) (language : String) : String × String :=
  let plugins := st.renderedPluginsFor placeholder.pk
  (String.join (plugins.map (fun p => r.env.plugin_toolbar_js p.pk)),
   r.env.placeholder_toolbar_js placeholder.pk language)

/-- The `editable` downgrade of `ContentRenderer.render_placeholder` (line
221): editable only inside an active edit session. -/
def ContentRenderer.effective_editable (r : Renderer) (editable : Bool) : Bool :=
  editable && r.placeholders_are_editable

/-- The `use_cache` downgrade of `ContentRenderer.render_placeholder` (lines
223-226): the cache is used only when the caller requested it, the render is
not editable, the placeholder itself allows caching, and
`placeholder_cache_is_enabled` holds. -/
def ContentRenderer.effective_use_cache (r : Renderer) (placeholder : Placeholder)
    (editable use_cache : Bool) : Bool :=
  if use_cache && !(ContentRenderer.effective_editable r editable)
      && placeholder.cache_placeholder then
    ContentRenderer.placeholder_cache_is_enabled r
  else false

/-- The empty-content fallback of `ContentRenderer.render_placeholder`
(lines 270-272): when the flattened plugin content is empty and a nodelist
was supplied, render the nodelist instead. -/
def ContentRenderer.apply_fallback (ph : Placeholder) (nodelist : Option String)
    (content : String) (st : RendererState) : String × RendererState :=
  if content == "" then
    match nodelist with
    | some nl => (nl, st.log (.fallbackRender ph.pk))
    | none => (content, st)
  else (content, st)

/-- The external cache write of `ContentRenderer.render_placeholder` (lines
274-285): performed only when the cache was used for this pass. -/
def ContentRenderer.store_in_cache (r : Renderer) (ph : Placeholder) (language : String)
    (uc : Bool) (content : String) (sekizai : List String)
    (st : RendererState) : RendererState :=
  if uc then st.log (.extCacheSet ph.pk language r.site_id content sekizai)
  else st

/-- The `RenderedPlaceholder` record step of
`ContentRenderer.render_placeholder` (lines 287-303): when no record for the
same placeholder exists yet, set the toolbar's `_cache_disabled` flag to the
negation of the cache usage — but only if it still reads enabled — and
append the record. -/
def ContentRenderer.record_rendered (st : RendererState)
    (rp : RenderedPlaceholder) : RendererState :=
  if st.renderedPlaceholders.any (fun e => RenderedPlaceholder.eq e rp) then st
  else
    let st := if !st.cacheDisabled then { st with cacheDisabled := !rp.cached } else st
    { st with renderedPlaceholders := st.renderedPlaceholders ++ [rp] }

/-- The editable wrapping of `ContentRenderer.render_placeholder` (lines
305-308): wrap the content with the placeholder edit template built from the
accumulated toolbar bookkeeping. -/
def ContentRenderer.apply_edit_wrap (r : Renderer) (ph : Placeholder) (language : String)
    (ed : Bool) (content : String) (st : RendererState) : String × RendererState :=
  if ed then
    let data := ContentRenderer.get_editable_placeholder_context r st ph language
    (placeholderEditTemplate content data.1 data.2 ph.pk, st.log (.editWrap ph.pk))
  else (content, st)

/-- The `width or placeholder.default_width` resolution and the conditional
`context['width']` assignment of `ContentRenderer.render_placeholder` (lines
244-248), honouring Python falsiness of `0` and `None`. -/
def ContentRenderer.apply_width (ph : Placeholder) (width : Option Nat) (ctx : Ctx) : Ctx :=
  match (match width with
    | some w => if w == 0 then ph.default_width else some w
    | none => ph.default_width) with
  | some w => if w == 0 then ctx else ctx.set "width" (toString w)
  | none => ctx

/-- The tail of the non-cache-hit path of
`ContentRenderer.render_placeholder` (lines 270-311), given the flattened
plugin content and the sekizai changes seen by the cache watcher: the
nodelist fallback for empty content, the external cache write, the
`RenderedPlaceholder` dedup/record step with the first-false-wins
`_cache_disabled` signal, the editable wrapping, and the trailing
`context.pop()` log, all in source order. -/
def ContentRenderer.finish_render (r : Renderer) (placeholder : Placeholder)
    (language : String) (editable use_cache : Bool) (nodelist : Option String)
    (content : String) (sekizai : List String) (st : RendererState) :
    String × RendererState :=
  let withFallback := ContentRenderer.apply_fallback placeholder nodelist content st
  let st := ContentRenderer.store_in_cache r placeholder language use_cache
    withFallback.1 sekizai withFallback.2
  let st := ContentRenderer.record_rendered st
    { placeholder := placeholder, language := language, site_id := r.site_id,
      cached := use_cache, editable := editable }
  let wrapped := ContentRenderer.apply_edit_wrap r placeholder language editable
    withFallback.1 st
  (wrapped.1, wrapped.2.log .ctxPop)

/-- The non-cache-hit path of `ContentRenderer.render_placeholder` (lines
242-311): push a context frame, populate width and extra context, render the
plugins, then finish (fallback, cache write, record, wrap), and pop the
frame. -/
def ContentRenderer.render_placeholder_fresh (r : Renderer) (st : RendererState) (ctx : Ctx)
    (placeholder : Placeholder) (language : String) (page : Option Page)
    (editable : Bool) (use_cache : Bool) (nodelist : Option String)
    (width : Option Nat) : String × RendererState × Ctx :=
  let st := st.log .ctxPush
  let ctx := ctx.push
  let template := page.map Page.get_template
  let ctx := ContentRenderer.apply_width placeholder width ctx
  let ctx := (r.env.get_extra_context placeholder.slot template).foldl
    (fun c kv => if c.containsKey kv.1 then c else c.set kv.1 kv.2) ctx
  let watcherLen := ctx.sekizai.length
  let rendered := ContentRenderer.render_plugins r st ctx placeholder language editable
  let finished := ContentRenderer.finish_render r placeholder language editable use_cache
    nodelist (String.join rendered.1) (rendered.2.2.sekizai.drop watcherLen) rendered.2.1
  (finished.1, finished.2, rendered.2.2.pop)

/-- Embedding of `ContentRenderer.render_placeholder` (lines 216-311):
resolve the language, downgrade the flags, consult the request-scoped cache
memo (which queries the external store) when the cache is used, return
immediately on a hit with the cached sekizai data restored into the caller's
context, and otherwise take the fresh-render path. -/
def ContentRenderer.render_placeholder (r : Renderer) (st : RendererState) (ctx : Ctx)
    (placeholder : Placeholder) (language : Option String) (page : Option Page)
    (editable : Bool) (use_cache : Bool) (nodelist : Option String)
    (width : Option Nat) : String × RendererState × Ctx :=
  let lang := language.getD r.request_language
  let ed := ContentRenderer.effective_editable r editable
  let uc := ContentRenderer.effective_use_cache r placeholder editable use_cache
  let cached :=
    if uc then ContentRenderer.get_cached_placeholder_content r st placeholder lang
    else (none, st)
  match cached.1 with
  | some cached_value =>
      (cached_value.content, cached.2,
       { ctx with sekizai := ctx.sekizai ++ cached_value.sekizai })
  | none =>
      ContentRenderer.render_placeholder_fresh r cached.2 ctx placeholder lang page
        ed uc nodelist width

/-- Embedding of `ContentRenderer._preload_placeholders_for_page` (lines
534-604).  The placeholders to examine are either the page's placeholders
restricted to `slots` or all of them; the inheritable slots are all of them
on an inheritance pass, the `inherit=true` declared slots outside edit mode,
and none in edit mode; with the cache enabled, only placeholders whose
request-memoized external cache lookup misses are fetched (each check
memoizes, in page order); the fetched placeholders get their plugin trees
bulk-assigned (with `is_fallback` equal to the inheritance flag); the
inheritable placeholders that ended up without plugins recurse into the
parent page; finally the page's slot index is recorded. -/
def ContentRenderer.preload_placeholders_for_page (r : Renderer) (st : RendererState)
    (page : Page) (slots : Option (List String)) (inherit : Bool) : RendererState :=
  match page with
  | .mk pk parent _template phs declared =>
    let placeholders : List Placeholder :=
      match slots with
      | some ss => phs.filter (fun (pl : Placeholder) => ss.contains pl.slot)
      | none => phs
    let slots_w_inheritance : List String :=
      if inherit then placeholders.map Placeholder.slot
      else if !r.edit_mode_active then
        (declared.filter DeclaredPlaceholder.inherit).map DeclaredPlaceholder.slot
      else []
    let checked : RendererState × List Bool :=
      if ContentRenderer.placeholder_cache_is_enabled r then
        placeholders.foldl
          (fun (acc : RendererState × List Bool) (pl : Placeholder) =>
            let got := ContentRenderer.get_cached_placeholder_content r acc.1 pl
              r.request_language
            (got.2, acc.2 ++ [got.1.isNone]))
          (st, ([] : List Bool))
      else (st, placeholders.map (fun _ => true))
    let st := checked.1
    let paired : List (Placeholder × Bool) := placeholders.zip checked.2
    let fetched : List Placeholder := paired.map (fun pf =>
      if pf.2 then
        { pf.1 with
            plugins_cache := some (r.env.assign_plugins pf.1.pk r.request_language inherit) }
      else pf.1)
    let fetched_pks : List Nat := (paired.filter (fun pf => pf.2)).map (fun pf => pf.1.pk)
    let st :=
      if fetched_pks.isEmpty then st
      else st.log (.assignPlugins fetched_pks r.request_language inherit)
    let placeholders_to_inherit : List String := (fetched.filter (fun pl =>
        (pl.plugins_cache.getD []).isEmpty && slots_w_inheritance.contains pl.slot)).map
      Placeholder.slot
    let st :=
      match parent with
      | some par =>
          if !placeholders_to_inherit.isEmpty then
            ContentRenderer.preload_placeholders_for_page r st par
              (some placeholders_to_inherit) true
          else st
      | none => st
    let idx := fetched.foldl (fun (m : List (String × Placeholder)) pl => (pl.slot, pl) :: m)
      ([] : List (String × Placeholder))
    { st with pagesCache := (pk, idx) :: st.pagesCache }

/-- Embedding of `ContentRenderer._get_page_placeholder` (lines 496-516):
prime the page's slot index if needed, then look the slot up; a missing page
entry or slot raises `PlaceholderNotFound`. -/
def ContentRenderer.get_page_placeholder (r : Renderer) (st : RendererState) (_ctx : Ctx)
    (page : Page) (slot : String) : Except String Placeholder × RendererState :=
  let st :=
    if (lookupPages st page.pk).isNone then
      ContentRenderer.preload_placeholders_for_page r st page none false
    else st
  match (lookupPages st page.pk).bind (fun idx => lookupSlot idx slot) with
  | none => (.error ("\"" ++ slot ++ "\" placeholder not found"), st)
  | some placeholder => (.ok placeholder, st)

/-- Embedding of `ContentRenderer._render_page_placeholder` (lines 518-532):
resolve the page's placeholder for the slot and render it with
`use_cache=True`. -/
def ContentRenderer.render_page_placeholder_inner (r : Renderer) (st : RendererState)
    (ctx : Ctx) (slot : String) (page : Page) (editable : Bool)
    (nodelist : Option String) : Except String String × RendererState × Ctx :=
  match ContentRenderer.get_page_placeholder r st ctx page slot with
  | (.error e, st) => (.error e, st, ctx)
  | (.ok placeholder, st) =>
      let rendered := ContentRenderer.render_placeholder r st ctx placeholder none
        (some page) editable true nodelist none
      (.ok rendered.1, rendered.2.1, rendered.2.2)

/-- The `for page in _get_page_ancestors(current_page)` loop of
`ContentRenderer.render_page_placeholder` (lines 360-395).  An ancestor whose
pk is missing from `_placeholders_by_page_cache` raises an uncaught
`KeyError` (only the slot lookup is inside the `try`); a primed ancestor
without the slot is skipped; an ancestor placeholder with prefetched plugins,
or (cache enabled) a cache hit, is rendered with `editable=False` and no
nodelist and ends the walk. -/
def ContentRenderer.inherit_from_ancestors (r : Renderer) (cache_enabled : Bool)
    (slot : String) :
    List Page → RendererState → Ctx → Except String (Option String) × RendererState × Ctx
  | [], st, ctx => (.ok none, st, ctx)
  | page :: rest, st, ctx =>
    match lookupPages st page.pk with
    | none => (.error ("KeyError: " ++ toString page.pk), st, ctx)
    | some page_placeholders =>
      match lookupSlot page_placeholders slot with
      | none => ContentRenderer.inherit_from_ancestors r cache_enabled slot rest st ctx
      | some placeholder =>
        let has_prefetched_plugins := !(placeholder.plugins_cache.getD []).isEmpty
        let checked :=
          if cache_enabled && !has_prefetched_plugins then
            let got := ContentRenderer.get_cached_placeholder_content r st placeholder
              r.request_language
            (got.1.isSome, got.2)
          else (false, st)
        let has_cached_content := checked.1
        let st := checked.2
        if has_prefetched_plugins || has_cached_content then
          let rendered := ContentRenderer.render_placeholder r st ctx placeholder none
            (some page) false true none none
          (.ok (some rendered.1), rendered.2.1, rendered.2.2)
        else ContentRenderer.inherit_from_ancestors r cache_enabled slot rest st ctx

/-- Embedding of `ContentRenderer.render_page_placeholder` (lines 329-396):
render the current page's placeholder for the slot; when the result is empty
and the page has a parent, and inheritance was requested outside an active
edit session, and the parent's slot index was primed, walk the ancestors for
the first inheritable content; otherwise (or when the walk finds none) return
the current page's result. -/
def ContentRenderer.render_page_placeholder (r : Renderer) (st : RendererState) (ctx : Ctx)
    (slot : String) (inherit : Bool) (nodelist : Option String) :
    Except String String × RendererState × Ctx :=
  match r.current_page with
  | none => (.ok "", st, ctx)
  | some current_page =>
    match ContentRenderer.render_page_placeholder_inner r st ctx slot current_page
        true nodelist with
    | (.error e, st, ctx) => (.error e, st, ctx)
    | (.ok content, st, ctx) =>
      if content != "" || current_page.parent_id.isNone then (.ok content, st, ctx)
      else if !inherit || r.edit_mode_active then (.ok content, st, ctx)
      else
        match current_page.parent_id with
        | none => (.ok content, st, ctx)
        | some parent_pk =>
          if (lookupPages st parent_pk).isNone then (.ok content, st, ctx)
          else
            let cache_enabled := ContentRenderer.placeholder_cache_is_enabled r
            match ContentRenderer.inherit_from_ancestors r cache_enabled slot
                (get_page_ancestors current_page) st ctx with
            | (.error e, st, ctx) => (.error e, st, ctx)
            | (.ok none, st, ctx) => (.ok content, st, ctx)
            | (.ok (some inherited_content), st, ctx) => (.ok inherited_content, st, ctx)

/-- Trace after logging: the event is appended. -/
theorem RendererState.log_trace (st : RendererState) (e : REvent) :
    (st.log e).trace = st.trace ++ [e] := rfl

/-- Logging does not change the request memo, so memo lookups are
unaffected. -/
theorem lookupContent_log (st : RendererState) (e : REvent) (key : Nat × String × Nat) :
    lookupContent (st.log e) key = lookupContent st key := rfl

/-- A memo entry just inserted is found. -/
theorem lookupContent_insert_self (st : RendererState) (key : Nat × String × Nat)
    (v : CachedValue) :
    lookupContent { st with contentCache := (key, v) :: st.contentCache } key = some v := by
  simp [lookupContent, List.find?]

/-- `render_plugin` touches only the per-placeholder plugin bookkeeping and
the context's sekizai data: the trace, the two memo caches, the
rendered-placeholder records, the cacheability flag and the context stack are
untouched. -/
theorem render_plugin_proj (r : Renderer) (st : RendererState) (ctx : Ctx)
    (p : Plugin) (ph : Placeholder) (ed : Bool) :
    (ContentRenderer.render_plugin r st ctx p ph ed).2.1.trace = st.trace
    ∧ (ContentRenderer.render_plugin r st ctx p ph ed).2.1.contentCache = st.contentCache
    ∧ (ContentRenderer.render_plugin r st ctx p ph ed).2.1.pagesCache = st.pagesCache
    ∧ (ContentRenderer.render_plugin r st ctx p ph ed).2.1.renderedPlaceholders
        = st.renderedPlaceholders
    ∧ (ContentRenderer.render_plugin r st ctx p ph ed).2.1.cacheDisabled = st.cacheDisabled
    ∧ (ContentRenderer.render_plugin r st ctx p ph ed).2.2.stack = ctx.stack := by
  unfold ContentRenderer.render_plugin
  split
  · simp
  · split <;> simp [RendererState.addRenderedPlugin]

/-- The plugin-rendering loop likewise touches only the plugin bookkeeping
and the sekizai data. -/
theorem render_plugin_list_proj (r : Renderer) (ph : Placeholder) (ed : Bool)
    (l : List Plugin) (st : RendererState) (ctx : Ctx) :
    (ContentRenderer.render_plugin_list r ph ed l st ctx).2.1.trace = st.trace
    ∧ (ContentRenderer.render_plugin_list r ph ed l st ctx).2.1.contentCache = st.contentCache
    ∧ (ContentRenderer.render_plugin_list r ph ed l st ctx).2.1.pagesCache = st.pagesCache
    ∧ (ContentRenderer.render_plugin_list r ph ed l st ctx).2.1.renderedPlaceholders
        = st.renderedPlaceholders
    ∧ (ContentRenderer.render_plugin_list r ph ed l st ctx).2.1.cacheDisabled
        = st.cacheDisabled
    ∧ (ContentRenderer.render_plugin_list r ph ed l st ctx).2.2.stack = ctx.stack := by
  induction l generalizing st ctx with
  | nil => simp [ContentRenderer.render_plugin_list]
  | cons p rest ih =>
    have h1 := render_plugin_proj r st ctx p ph ed
    have h2 := ih (ContentRenderer.render_plugin r st ctx p ph ed).2.1
      (ContentRenderer.render_plugin r st ctx p ph ed).2.2
    simp only [ContentRenderer.render_plugin_list]
    exact ⟨h2.1.trans h1.1, h2.2.1.trans h1.2.1, h2.2.2.1.trans h1.2.2.1,
      h2.2.2.2.1.trans h1.2.2.2.1, h2.2.2.2.2.1.trans h1.2.2.2.2.1,
      h2.2.2.2.2.2.trans h1.2.2.2.2.2⟩

/-- `render_plugins` = the loop over the plugins to render, so it satisfies
the same frame conditions. -/
theorem render_plugins_proj (r : Renderer) (st : RendererState) (ctx : Ctx)
    (ph : Placeholder) (language : String) (ed : Bool) :
    (ContentRenderer.render_plugins r st ctx ph language ed).2.1.trace = st.trace
    ∧ (ContentRenderer.render_plugins r st ctx ph language ed).2.1.contentCache
        = st.contentCache
    ∧ (ContentRenderer.render_plugins r st ctx ph language ed).2.1.pagesCache
        = st.pagesCache
    ∧ (ContentRenderer.render_plugins r st ctx ph language ed).2.1.renderedPlaceholders
        = st.renderedPlaceholders
    ∧ (ContentRenderer.render_plugins r st ctx ph language ed).2.1.cacheDisabled
        = st.cacheDisabled
    ∧ (ContentRenderer.render_plugins r st ctx ph language ed).2.2.stack = ctx.stack :=
  render_plugin_list_proj r ph ed (ContentRenderer.get_plugins_to_render r ph language) st ctx

/-- Setting a context variable does not change the sekizai data and keeps the
frame structure below the top frame. -/
theorem ctx_set_tail (c : Ctx) (k v : String) (f : List (String × String))
    (rest : List (List (String × String))) (h : c.stack = f :: rest) :
    (c.set k v).stack = ((k, v) :: f) :: rest ∧ (c.set k v).sekizai = c.sekizai := by
  cases c with
  | mk stack sekizai =>
    cases h
    simp [Ctx.set]

/-- The extra-context population loop keeps the frame structure below the top
frame and the sekizai data. -/
theorem ctx_extra_fold_tail (items : List (String × String)) (c : Ctx)
    (f : List (String × String)) (rest : List (List (String × String)))
    (h : c.stack = f :: rest) :
    ∃ g, (items.foldl
        (fun c kv => if c.containsKey kv.1 then c else c.set kv.1 kv.2) c).stack
          = g :: rest
      ∧ (items.foldl
        (fun c kv => if c.containsKey kv.1 then c else c.set kv.1 kv.2) c).sekizai
          = c.sekizai := by
  induction items generalizing c f with
  | nil => exact ⟨f, h, rfl⟩
  | cons kv restItems ih =>
    simp only [List.foldl_cons]
    by_cases hc : c.containsKey kv.1 = true
    · rw [if_pos hc]
      exact ih c f h
    · rw [if_neg hc]
      obtain ⟨hs, hsek⟩ := ctx_set_tail c kv.1 kv.2 f rest h
      obtain ⟨g, hg, hgs⟩ := ih (c.set kv.1 kv.2) ((kv.1, kv.2) :: f) hs
      exact ⟨g, hg, hgs.trans hsek⟩

/-- The fallback step only (possibly) logs a fallback event; every other
state component is untouched, and without a nodelist nothing at all
happens. -/
theorem apply_fallback_spec (ph : Placeholder) (nl : Option String) (c : String)
    (st : RendererState) :
    ∃ d : List REvent,
      (ContentRenderer.apply_fallback ph nl c st).2.trace = st.trace ++ d
      ∧ (d = [] ∨ d = [REvent.fallbackRender ph.pk])
      ∧ (nl = none → d = [])
      ∧ (ContentRenderer.apply_fallback ph nl c st).2.contentCache = st.contentCache
      ∧ (ContentRenderer.apply_fallback ph nl c st).2.pagesCache = st.pagesCache
      ∧ (ContentRenderer.apply_fallback ph nl c st).2.renderedPlaceholders
          = st.renderedPlaceholders
      ∧ (ContentRenderer.apply_fallback ph nl c st).2.cacheDisabled = st.cacheDisabled := by
  unfold ContentRenderer.apply_fallback
  by_cases hc : (c == "") = true
  · rw [if_pos hc]
    cases nl with
    | none =>
        refine ⟨[], ?_, Or.inl rfl, fun _ => rfl, ?_, ?_, ?_, ?_⟩ <;> simp
    | some s =>
        refine ⟨[REvent.fallbackRender ph.pk], ?_, ?_, ?_, ?_, ?_, ?_, ?_⟩
        · rfl
        · exact Or.inr rfl
        · exact fun h => nomatch h
        · rfl
        · rfl
        · rfl
        · rfl
  · rw [if_neg hc]
    refine ⟨[], ?_, Or.inl rfl, fun _ => rfl, ?_, ?_, ?_, ?_⟩ <;> simp

/-- The cache-store step only (possibly) logs a cache write; every other
state component is untouched, and without cache usage nothing at all
happens. -/
theorem store_in_cache_spec (r : Renderer) (ph : Placeholder) (lang : String) (uc : Bool)
    (c : String) (sek : List String) (st : RendererState) :
    ∃ d : List REvent,
      (ContentRenderer.store_in_cache r ph lang uc c sek st).trace = st.trace ++ d
      ∧ (d = [] ∨ d = [REvent.extCacheSet ph.pk lang r.site_id c sek])
      ∧ (uc = false → d = [])
      ∧ (ContentRenderer.store_in_cache r ph lang uc c sek st).contentCache = st.contentCache
      ∧ (ContentRenderer.store_in_cache r ph lang uc c sek st).pagesCache = st.pagesCache
      ∧ (ContentRenderer.store_in_cache r ph lang uc c sek st).renderedPlaceholders
          = st.renderedPlaceholders
      ∧ (ContentRenderer.store_in_cache r ph lang uc c sek st).cacheDisabled
          = st.cacheDisabled := by
  unfold ContentRenderer.store_in_cache
  cases uc with
  | false =>
      refine ⟨[], ?_, Or.inl rfl, fun _ => rfl, ?_, ?_, ?_, ?_⟩ <;> simp
  | true =>
      refine ⟨[REvent.extCacheSet ph.pk lang r.site_id c sek], ?_, ?_, ?_, ?_, ?_, ?_, ?_⟩
      · rfl
      · exact Or.inr rfl
      · exact fun h => nomatch h
      · rfl
      · rfl
      · rfl
      · rfl

/-- The record step never logs and never touches the memo caches; it leaves
the rendered-placeholder list unchanged when a record for the same
placeholder exists, appends the record otherwise, in which case the
cacheability flag becomes its old value or-ed with the negated cache usage;
once disabled it stays disabled. -/
theorem record_rendered_spec (st : RendererState) (rp : RenderedPlaceholder) :
    (ContentRenderer.record_rendered st rp).trace = st.trace
    ∧ (ContentRenderer.record_rendered st rp).contentCache = st.contentCache
    ∧ (ContentRenderer.record_rendered st rp).pagesCache = st.pagesCache
    ∧ (st.renderedPlaceholders.any (fun e => RenderedPlaceholder.eq e rp) = true →
        ContentRenderer.record_rendered st rp = st)
    ∧ (st.renderedPlaceholders.any (fun e => RenderedPlaceholder.eq e rp) = false →
        (ContentRenderer.record_rendered st rp).renderedPlaceholders
            = st.renderedPlaceholders ++ [rp]
          ∧ (ContentRenderer.record_rendered st rp).cacheDisabled
            = (st.cacheDisabled || !rp.cached))
    ∧ (st.cacheDisabled = true →
        (ContentRenderer.record_rendered st rp).cacheDisabled = true) := by
  by_cases hmem : (st.renderedPlaceholders.any fun e => RenderedPlaceholder.eq e rp) = true
  · refine ⟨?_, ?_, ?_, ?_, ?_, ?_⟩ <;>
      simp [ContentRenderer.record_rendered, hmem]
  · have hm : (st.renderedPlaceholders.any fun e => RenderedPlaceholder.eq e rp) = false := by
      simpa using hmem
    cases hcd : st.cacheDisabled with
    | false =>
        refine ⟨?_, ?_, ?_, ?_, ?_, ?_⟩ <;>
          simp [ContentRenderer.record_rendered, hm, hcd]
    | true =>
        refine ⟨?_, ?_, ?_, ?_, ?_, ?_⟩ <;>
          simp [ContentRenderer.record_rendered, hm, hcd]

/-- The edit-wrap step only (possibly) logs a wrap event; the state is
otherwise untouched, and a non-editable render keeps the content and the
state unchanged. -/
theorem apply_edit_wrap_spec (r : Renderer) (ph : Placeholder) (lang : String) (ed : Bool)
    (c : String) (st : RendererState) :
    ∃ d : List REvent,
      (ContentRenderer.apply_edit_wrap r ph lang ed c st).2.trace = st.trace ++ d
      ∧ (d = [] ∨ d = [REvent.editWrap ph.pk])
      ∧ (ed = false → d = [])
      ∧ (ed = false →
          ContentRenderer.apply_edit_wrap r ph lang ed c st = (c, st))
      ∧ (ContentRenderer.apply_edit_wrap r ph lang ed c st).2.contentCache = st.contentCache
      ∧ (ContentRenderer.apply_edit_wrap r ph lang ed c st).2.pagesCache = st.pagesCache
      ∧ (ContentRenderer.apply_edit_wrap r ph lang ed c st).2.renderedPlaceholders
          = st.renderedPlaceholders
      ∧ (ContentRenderer.apply_edit_wrap r ph lang ed c st).2.cacheDisabled
          = st.cacheDisabled := by
  unfold ContentRenderer.apply_edit_wrap
  cases ed with
  | false =>
      refine ⟨[], ?_, Or.inl rfl, fun _ => rfl, fun _ => rfl, ?_, ?_, ?_, ?_⟩ <;> simp
  | true =>
      refine ⟨[REvent.editWrap ph.pk], ?_, ?_, ?_, ?_, ?_, ?_, ?_, ?_⟩
      · rfl
      · exact Or.inr rfl
      · exact fun h => nomatch h
      · exact fun h => nomatch h
      · rfl
      · rfl
      · rfl
      · rfl

/-- The width step keeps the frame structure below the top frame and the
sekizai data. -/
theorem apply_width_tail (ph : Placeholder) (width : Option Nat) (c : Ctx)
    (f : List (String × String)) (rest : List (List (String × String)))
    (h : c.stack = f :: rest) :
    ∃ g, (ContentRenderer.apply_width ph width c).stack = g :: rest
      ∧ (ContentRenderer.apply_width ph width c).sekizai = c.sekizai := by
  cases hw : (match width with
      | some w => if w == 0 then ph.default_width else some w
      | none => ph.default_width : Option Nat) with
  | none =>
      unfold ContentRenderer.apply_width
      rw [hw]
      exact ⟨f, h, rfl⟩
  | some w =>
      by_cases hz : (w == 0) = true
      · unfold ContentRenderer.apply_width
        rw [hw]
        refine ⟨f, ?_, ?_⟩ <;> simp [hz, h]
      · obtain ⟨hs, hsek⟩ := ctx_set_tail c "width" (toString w) f rest h
        unfold ContentRenderer.apply_width
        rw [hw]
        refine ⟨("width", toString w) :: f, ?_, ?_⟩ <;> simp [hz, hs, hsek]

/-- Without a nodelist the fallback step is the identity. -/
theorem apply_fallback_none (ph : Placeholder) (c : String) (st : RendererState) :
    ContentRenderer.apply_fallback ph none c st = (c, st) := by
  unfold ContentRenderer.apply_fallback
  split <;> rfl

/-- Without cache usage the cache-store step is the identity. -/
theorem store_in_cache_false (r : Renderer) (ph : Placeholder) (lang : String)
    (c : String) (sek : List String) (st : RendererState) :
    ContentRenderer.store_in_cache r ph lang false c sek st = st := rfl

/-- A non-editable render is not wrapped. -/
theorem apply_edit_wrap_false (r : Renderer) (ph : Placeholder) (lang : String)
    (c : String) (st : RendererState) :
    ContentRenderer.apply_edit_wrap r ph lang false c st = (c, st) := rfl

/-- The plugin-rendering loop logs nothing. -/
theorem render_plugins_trace (r : Renderer) (st : RendererState) (ctx : Ctx)
    (ph : Placeholder) (language : String) (ed : Bool) :
    (ContentRenderer.render_plugins r st ctx ph language ed).2.1.trace = st.trace :=
  (render_plugins_proj r st ctx ph language ed).1

/-- The record step logs nothing. -/
theorem record_rendered_trace (st : RendererState) (rp : RenderedPlaceholder) :
    (ContentRenderer.record_rendered st rp).trace = st.trace :=
  (record_rendered_spec st rp).1

/-- Trace shape of the render tail: the only events it can add are one
fallback render (only with a nodelist), one external cache write (only with
cache usage), one edit wrap (only when editable) and the closing context
pop. -/
theorem finish_render_trace_spec (r : Renderer) (ph : Placeholder) (lang : String)
    (ed uc : Bool) (nl : Option String) (content : String) (sek : List String)
    (st : RendererState) :
    ∃ d1 d2 d3 : List REvent,
      ((ContentRenderer.finish_render r ph lang ed uc nl content sek st).2).trace
        = st.trace ++ d1 ++ d2 ++ d3 ++ [REvent.ctxPop]
      ∧ (d1 = [] ∨ d1 = [REvent.fallbackRender ph.pk])
      ∧ (d2 = [] ∨ ∃ c2 s2, d2 = [REvent.extCacheSet ph.pk lang r.site_id c2 s2])
      ∧ (d3 = [] ∨ d3 = [REvent.editWrap ph.pk])
      ∧ (nl = none → d1 = [])
      ∧ (uc = false → d2 = [])
      ∧ (ed = false → d3 = []) := by
  obtain ⟨d1, ht1, hopt1, hnl1, _⟩ := apply_fallback_spec ph nl content st
  unfold ContentRenderer.finish_render
  dsimp only
  generalize hfb : ContentRenderer.apply_fallback ph nl content st = fb
  rw [hfb] at ht1
  obtain ⟨d2, ht2, hopt2, huc2, _⟩ := store_in_cache_spec r ph lang uc fb.1 sek fb.2
  generalize hst3 : ContentRenderer.store_in_cache r ph lang uc fb.1 sek fb.2 = st3
  rw [hst3] at ht2
  generalize hst4 : ContentRenderer.record_rendered st3
    { placeholder := ph, language := lang, site_id := r.site_id,
      cached := uc, editable := ed } = st4
  have ht4 : st4.trace = st3.trace := by
    rw [← hst4]
    exact record_rendered_trace st3 _
  obtain ⟨d3, ht3, hopt3, hed3, _⟩ := apply_edit_wrap_spec r ph lang ed fb.1 st4
  generalize hw : ContentRenderer.apply_edit_wrap r ph lang ed fb.1 st4 = wr
  rw [hw] at ht3
  refine ⟨d1, d2, d3, ?_, hopt1, ?_, hopt3, hnl1, huc2, hed3⟩
  · rw [RendererState.log_trace, ht3, ht4, ht2, ht1]
  · rcases hopt2 with h | h
    · exact Or.inl h
    · exact Or.inr ⟨fb.1, sek, h⟩

/-- State shape of the render tail: the memo caches are untouched; the
rendered-placeholder list and cacheability flag change exactly as in the
record step. -/
theorem finish_render_state_spec (r : Renderer) (ph : Placeholder) (lang : String)
    (ed uc : Bool) (nl : Option String) (content : String) (sek : List String)
    (st : RendererState) :
    ((ContentRenderer.finish_render r ph lang ed uc nl content sek st).2).contentCache
        = st.contentCache
    ∧ ((ContentRenderer.finish_render r ph lang ed uc nl content sek st).2).pagesCache
        = st.pagesCache
    ∧ ((st.renderedPlaceholders.any fun e => e.placeholder.pk == ph.pk) = true →
        ((ContentRenderer.finish_render r ph lang ed uc nl content sek st).2).renderedPlaceholders
            = st.renderedPlaceholders
          ∧ ((ContentRenderer.finish_render r ph lang ed uc nl content sek st).2).cacheDisabled
            = st.cacheDisabled)
    ∧ ((st.renderedPlaceholders.any fun e => e.placeholder.pk == ph.pk) = false →
        ((ContentRenderer.finish_render r ph lang ed uc nl content sek st).2).renderedPlaceholders
            = st.renderedPlaceholders
              ++ [{ placeholder := ph, language := lang, site_id := r.site_id,
                    cached := uc, editable := ed }]
          ∧ ((ContentRenderer.finish_render r ph lang ed uc nl content sek st).2).cacheDisabled
            = (st.cacheDisabled || !uc)) := by
  obtain ⟨d1, ht1, hopt1, hnl1, hc1, hp1, hr1, hd1⟩ := apply_fallback_spec ph nl content st
  unfold ContentRenderer.finish_render
  dsimp only
  generalize hfb : ContentRenderer.apply_fallback ph nl content st = fb
  rw [hfb] at hc1 hp1 hr1 hd1
  obtain ⟨d2, ht2, hopt2, huc2, hc2, hp2, hr2, hd2⟩ :=
    store_in_cache_spec r ph lang uc fb.1 sek fb.2
  generalize hst3 : ContentRenderer.store_in_cache r ph lang uc fb.1 sek fb.2 = st3
  rw [hst3] at hc2 hp2 hr2 hd2
  have hrec := record_rendered_spec st3
    { placeholder := ph, language := lang, site_id := r.site_id,
      cached := uc, editable := ed }
  generalize hst4 : ContentRenderer.record_rendered st3
    { placeholder := ph, language := lang, site_id := r.site_id,
      cached := uc, editable := ed } = st4
  rw [hst4] at hrec
  obtain ⟨d3, ht3, hopt3, hed3, hid3, hc3, hp3, hr3, hd3⟩ := apply_edit_wrap_spec r ph lang ed fb.1 st4
  generalize hw : ContentRenderer.apply_edit_wrap r ph lang ed fb.1 st4 = wr
  rw [hw] at hc3 hp3 hr3 hd3
  have hmemEq : (st3.renderedPlaceholders.any fun e => RenderedPlaceholder.eq e
      { placeholder := ph, language := lang, site_id := r.site_id,
        cached := uc, editable := ed })
      = (st.renderedPlaceholders.any fun e => e.placeholder.pk == ph.pk) := by
    rw [hr2, hr1]
    rfl
  refine ⟨?_, ?_, ?_, ?_⟩
  · show wr.2.contentCache = st.contentCache
    rw [hc3, hrec.2.1, hc2, hc1]
  · show wr.2.pagesCache = st.pagesCache
    rw [hp3, hrec.2.2.1, hp2, hp1]
  · intro hmem
    have h4 := hrec.2.2.2.1 (hmemEq.trans hmem)
    constructor
    · show wr.2.renderedPlaceholders = st.renderedPlaceholders
      rw [hr3, h4, hr2, hr1]
    · show wr.2.cacheDisabled = st.cacheDisabled
      rw [hd3, h4, hd2, hd1]
  · intro hmem
    have h5 := hrec.2.2.2.2.1 (hmemEq.trans hmem)
    constructor
    · show wr.2.renderedPlaceholders = st.renderedPlaceholders
        ++ [{ placeholder := ph, language := lang, site_id := r.site_id,
              cached := uc, editable := ed }]
      rw [hr3, h5.1, hr2, hr1]
    · show wr.2.cacheDisabled = (st.cacheDisabled || !uc)
      rw [hd3, h5.2, hd2, hd1]

/-- Decomposition of the fresh-render path: it is the render tail applied to
the plugin outputs, run from a state that differs from the entry state only
by the logged context push, with a context that has one extra frame on the
entry stack. -/
theorem fresh_decompose (r : Renderer) (st : RendererState) (ctx : Ctx)
    (ph : Placeholder) (lang : String) (page : Option Page) (ed uc : Bool)
    (nl : Option String) (w : Option Nat) :
    ∃ (outs : List String) (st1 : RendererState) (ctx1 : Ctx) (n : Nat),
      st1.trace = st.trace ++ [REvent.ctxPush]
      ∧ st1.contentCache = st.contentCache
      ∧ st1.pagesCache = st.pagesCache
      ∧ st1.renderedPlaceholders = st.renderedPlaceholders
      ∧ st1.cacheDisabled = st.cacheDisabled
      ∧ (∃ f, ctx1.stack = f :: ctx.stack)
      ∧ ContentRenderer.render_placeholder_fresh r st ctx ph lang page ed uc nl w
        = ((ContentRenderer.finish_render r ph lang ed uc nl (String.join outs)
              (ctx1.sekizai.drop n) st1).1,
           (ContentRenderer.finish_render r ph lang ed uc nl (String.join outs)
              (ctx1.sekizai.drop n) st1).2,
           ctx1.pop) := by
  obtain ⟨f0, hf0, _⟩ := apply_width_tail ph w ctx.push [] ctx.stack rfl
  obtain ⟨f1, hf1, _⟩ := ctx_extra_fold_tail
    (r.env.get_extra_context ph.slot (page.map Page.get_template))
    (ContentRenderer.apply_width ph w ctx.push) f0 ctx.stack hf0
  have hproj := render_plugins_proj r (st.log .ctxPush)
    ((r.env.get_extra_context ph.slot (page.map Page.get_template)).foldl
      (fun c kv => if c.containsKey kv.1 then c else c.set kv.1 kv.2)
      (ContentRenderer.apply_width ph w ctx.push)) ph lang ed
  refine ⟨(ContentRenderer.render_plugins r (st.log .ctxPush)
      ((r.env.get_extra_context ph.slot (page.map Page.get_template)).foldl
        (fun c kv => if c.containsKey kv.1 then c else c.set kv.1 kv.2)
        (ContentRenderer.apply_width ph w ctx.push)) ph lang ed).1,
    (ContentRenderer.render_plugins r (st.log .ctxPush)
      ((r.env.get_extra_context ph.slot (page.map Page.get_template)).foldl
        (fun c kv => if c.containsKey kv.1 then c else c.set kv.1 kv.2)
        (ContentRenderer.apply_width ph w ctx.push)) ph lang ed).2.1,
    (ContentRenderer.render_plugins r (st.log .ctxPush)
      ((r.env.get_extra_context ph.slot (page.map Page.get_template)).foldl
        (fun c kv => if c.containsKey kv.1 then c else c.set kv.1 kv.2)
        (ContentRenderer.apply_width ph w ctx.push)) ph lang ed).2.2,
    ((r.env.get_extra_context ph.slot (page.map Page.get_template)).foldl
      (fun c kv => if c.containsKey kv.1 then c else c.set kv.1 kv.2)
      (ContentRenderer.apply_width ph w ctx.push)).sekizai.length,
    ?_, ?_, ?_, ?_, ?_, ?_, ?_⟩
  · rw [hproj.1, RendererState.log_trace]
  · exact hproj.2.1
  · exact hproj.2.2.1
  · exact hproj.2.2.2.1
  · exact hproj.2.2.2.2.1
  · exact ⟨f1, (hproj.2.2.2.2.2).trans hf1⟩
  · rfl

/-- Frame conditions of `_get_cached_placeholder_content`: it can only log a
single external cache consultation and add a memo entry; the page index, the
rendered-placeholder records, and the cacheability flag stay untouched. -/
theorem gcc_spec (r : Renderer) (st : RendererState) (ph : Placeholder) (lang : String) :
    ∃ d : List REvent,
      (ContentRenderer.get_cached_placeholder_content r st ph lang).2.trace = st.trace ++ d
      ∧ (d = [] ∨ d = [REvent.extCacheGet ph.pk lang r.site_id])
      ∧ (ContentRenderer.get_cached_placeholder_content r st ph lang).2.pagesCache
          = st.pagesCache
      ∧ (ContentRenderer.get_cached_placeholder_content r st ph lang).2.renderedPlaceholders
          = st.renderedPlaceholders
      ∧ (ContentRenderer.get_cached_placeholder_content r st ph lang).2.cacheDisabled
          = st.cacheDisabled := by
  unfold ContentRenderer.get_cached_placeholder_content
  by_cases hmiss : (lookupContent st (r.site_id, lang, ph.pk)).isNone = true
  · rw [if_pos hmiss]
    cases r.env.get_placeholder_cache ph.pk lang r.site_id with
    | none =>
        refine ⟨[REvent.extCacheGet ph.pk lang r.site_id], ?_, Or.inr rfl, ?_, ?_, ?_⟩ <;> rfl
    | some v =>
        refine ⟨[REvent.extCacheGet ph.pk lang r.site_id], ?_, Or.inr rfl, ?_, ?_, ?_⟩ <;> rfl
  · rw [if_neg hmiss]
    refine ⟨[], ?_, Or.inl rfl, ?_, ?_, ?_⟩ <;> simp

/-- Under any of the four ineligibility conditions the downgraded `use_cache`
flag is false. -/
theorem effective_use_cache_false (r : Renderer) (ph : Placeholder)
    (editable use_cache : Bool)
    (h : r.is_staff = true ∨ r.edit_mode_active = true ∨ ph.cache_placeholder = false
        ∨ r.placeholder_cache_setting = false) :
    ContentRenderer.effective_use_cache r ph editable use_cache = false := by
  rcases h with h | h | h | h
  · cases hs : r.placeholder_cache_setting <;>
      simp [ContentRenderer.effective_use_cache,
        ContentRenderer.placeholder_cache_is_enabled, h, hs]
  · cases editable <;>
      simp [ContentRenderer.effective_use_cache,
        ContentRenderer.placeholder_cache_is_enabled,
        ContentRenderer.effective_editable, Renderer.placeholders_are_editable, h]
  · simp [ContentRenderer.effective_use_cache, h]
  · simp [ContentRenderer.effective_use_cache,
      ContentRenderer.placeholder_cache_is_enabled, h]

/-- When the downgraded cache flag is false `render_placeholder` takes the
fresh path directly from the entry state. -/
theorem render_placeholder_eq_fresh (r : Renderer) (st : RendererState) (ctx : Ctx)
    (ph : Placeholder) (language : Option String) (page : Option Page)
    (editable use_cache : Bool) (nodelist : Option String) (width : Option Nat)
    (huc : ContentRenderer.effective_use_cache r ph editable use_cache = false) :
    ContentRenderer.render_placeholder r st ctx ph language page editable use_cache
        nodelist width
      = ContentRenderer.render_placeholder_fresh r st ctx ph
          (language.getD r.request_language) page
          (ContentRenderer.effective_editable r editable) false nodelist width := by
  unfold ContentRenderer.render_placeholder
  rw [huc]
  rfl

/-- When the downgraded cache flag is true and the memo lookup hits,
`render_placeholder` returns the cached content with the sekizai data
restored; only the lookup itself touched the state. -/
theorem render_placeholder_eq_hit (r : Renderer) (st : RendererState) (ctx : Ctx)
    (ph : Placeholder) (language : Option String) (page : Option Page)
    (editable use_cache : Bool) (nodelist : Option String) (width : Option Nat)
    (cv : CachedValue)
    (huc : ContentRenderer.effective_use_cache r ph editable use_cache = true)
    (hv : (ContentRenderer.get_cached_placeholder_content r st ph
        (language.getD r.request_language)).1 = some cv) :
    ContentRenderer.render_placeholder r st ctx ph language page editable use_cache
        nodelist width
      = (cv.content,
         (ContentRenderer.get_cached_placeholder_content r st ph
           (language.getD r.request_language)).2,
         { ctx with sekizai := ctx.sekizai ++ cv.sekizai }) := by
  unfold ContentRenderer.render_placeholder
  rw [huc]
  simp only [eq_self_iff_true, if_true]
  rw [hv]

/-- When the downgraded cache flag is true and the memo lookup misses,
`render_placeholder` takes the fresh path from the post-lookup state. -/
theorem render_placeholder_eq_miss (r : Renderer) (st : RendererState) (ctx : Ctx)
    (ph : Placeholder) (language : Option String) (page : Option Page)
    (editable use_cache : Bool) (nodelist : Option String) (width : Option Nat)
    (huc : ContentRenderer.effective_use_cache r ph editable use_cache = true)
    (hv : (ContentRenderer.get_cached_placeholder_content r st ph
        (language.getD r.request_language)).1 = none) :
    ContentRenderer.render_placeholder r st ctx ph language page editable use_cache
        nodelist width
      = ContentRenderer.render_placeholder_fresh r
          (ContentRenderer.get_cached_placeholder_content r st ph
            (language.getD r.request_language)).2 ctx ph
          (language.getD r.request_language) page
          (ContentRenderer.effective_editable r editable) true nodelist width := by
  unfold ContentRenderer.render_placeholder
  rw [huc]
  simp only [eq_self_iff_true, if_true]
  rw [hv]

/-- Claim C4: for every call to the Content Renderer's `render_placeholder`,
the external cache is neither consulted nor written when the viewer is
staff, when an active edit session is in progress, when the placeholder's
own cache-eligibility flag is false, or when the global
`CMS_PLACEHOLDER_CACHE` feature is disabled — regardless of the caller
passing `use_cache = true` (the trace gains no external cache get or set
events). -/
theorem C4_cache_bypassed_when_ineligible (r : Renderer) (st : RendererState)
    (ctx : Ctx) (ph : Placeholder) (language : Option String) (page : Option Page)
    (editable use_cache : Bool) (nodelist : Option String) (width : Option Nat)
    (h : r.is_staff = true ∨ r.edit_mode_active = true ∨ ph.cache_placeholder = false
        ∨ r.placeholder_cache_setting = false) :
    ((ContentRenderer.render_placeholder r st ctx ph language page editable use_cache
        nodelist width).2.1.trace).filter REvent.isExternalCache
      = st.trace.filter REvent.isExternalCache := by
  have huc := effective_use_cache_false r ph editable use_cache h
  rw [render_placeholder_eq_fresh r st ctx ph language page editable use_cache
    nodelist width huc]
  obtain ⟨outs, st1, ctx1, n, htr, _, _, _, _, _, heq⟩ :=
    fresh_decompose r st ctx ph (language.getD r.request_language) page
      (ContentRenderer.effective_editable r editable) false nodelist width
  rw [heq]
  dsimp only
  obtain ⟨d1, d2, d3, ht, ho1, ho2, ho3, _, hu, _⟩ :=
    finish_render_trace_spec r ph (language.getD r.request_language)
      (ContentRenderer.effective_editable r editable) false nodelist
      (String.join outs) (ctx1.sekizai.drop n) st1
  rw [ht, htr, hu rfl]
  rcases ho1 with rfl | rfl <;> rcases ho3 with rfl | rfl <;>
    simp [List.filter_append, REvent.isExternalCache]

/-- Witness for C4: a staff viewer's render with `use_cache = true` adds no
external cache events to an empty trace. -/
theorem C4_cache_bypassed_when_ineligible_witness :
    ((ContentRenderer.render_placeholder
        { request_language := "en", site_id := 1, is_staff := true,
          edit_mode_active := false, placeholder_cache_setting := true,
          current_page := none,
          env := { get_placeholder_cache := fun _ _ _ => none,
                   assign_plugins := fun _ _ _ => [],
                   has_instance := fun _ => true,
                   render_plugin_flag := fun _ => true,
                   plugin_output := fun _ => "X",
                   plugin_sekizai := fun _ => [],
                   get_extra_context := fun _ _ => [],
                   placeholder_toolbar_js := fun _ _ => "",
                   plugin_toolbar_js := fun _ => "" } }
        RendererState.initial ⟨[[]], []⟩ ⟨7, "slot", true, none, none⟩ none none
        false true none none).2.1.trace).filter REvent.isExternalCache
      = RendererState.initial.trace.filter REvent.isExternalCache :=
  C4_cache_bypassed_when_ineligible _ _ _ _ _ _ _ _ _ _ (Or.inl rfl)

/-- Claim C9: every call to the Content Renderer's `render_placeholder`
leaves the caller's context stack exactly as it was on entry, and the events
it adds to the trace contain equally many context pushes and pops — at most
one of each (zero on the cache-hit early return, one matched pair on the
rendering path). -/
theorem C9_context_stack_balanced (r : Renderer) (st : RendererState) (ctx : Ctx)
    (ph : Placeholder) (language : Option String) (page : Option Page)
    (editable use_cache : Bool) (nodelist : Option String) (width : Option Nat) :
    (ContentRenderer.render_placeholder r st ctx ph language page editable use_cache
        nodelist width).2.2.stack = ctx.stack
    ∧ ∃ d : List REvent,
        (ContentRenderer.render_placeholder r st ctx ph language page editable use_cache
            nodelist width).2.1.trace = st.trace ++ d
        ∧ (d.filter REvent.isCtxPush).length = (d.filter REvent.isCtxPop).length
        ∧ (d.filter REvent.isCtxPush).length ≤ 1 := by
  have freshCase : ∀ (st0 : RendererState) (uc : Bool),
      (ContentRenderer.render_placeholder_fresh r st0 ctx ph
          (language.getD r.request_language) page
          (ContentRenderer.effective_editable r editable) uc nodelist width).2.2.stack
        = ctx.stack
      ∧ ∃ d : List REvent,
        (ContentRenderer.render_placeholder_fresh r st0 ctx ph
            (language.getD r.request_language) page
            (ContentRenderer.effective_editable r editable) uc nodelist width).2.1.trace
          = st0.trace ++ d
        ∧ (d.filter REvent.isCtxPush).length = (d.filter REvent.isCtxPop).length
        ∧ (d.filter REvent.isCtxPush).length ≤ 1 := by
    intro st0 uc
    obtain ⟨outs, st1, ctx1, n, htr, _, _, _, _, ⟨f, hstk⟩, heq⟩ :=
      fresh_decompose r st0 ctx ph (language.getD r.request_language) page
        (ContentRenderer.effective_editable r editable) uc nodelist width
    rw [heq]
    obtain ⟨d1, d2, d3, ht, ho1, ho2, ho3, _, _, _⟩ :=
      finish_render_trace_spec r ph (language.getD r.request_language)
        (ContentRenderer.effective_editable r editable) uc nodelist
        (String.join outs) (ctx1.sekizai.drop n) st1
    constructor
    · show ctx1.pop.stack = ctx.stack
      rw [Ctx.pop, hstk]
      rfl
    · refine ⟨[REvent.ctxPush] ++ d1 ++ d2 ++ d3 ++ [REvent.ctxPop], ?_, ?_, ?_⟩
      · show (ContentRenderer.finish_render r ph (language.getD r.request_language)
            (ContentRenderer.effective_editable r editable) uc nodelist
            (String.join outs) (ctx1.sekizai.drop n) st1).2.trace = _
        rw [ht, htr]
        simp [List.append_assoc]
      · rcases ho1 with rfl | rfl <;> rcases ho3 with rfl | rfl <;>
          rcases ho2 with rfl | ⟨c2, s2, rfl⟩ <;>
          simp [List.filter_append, REvent.isCtxPush, REvent.isCtxPop]
      · rcases ho1 with rfl | rfl <;> rcases ho3 with rfl | rfl <;>
          rcases ho2 with rfl | ⟨c2, s2, rfl⟩ <;>
          simp [List.filter_append, REvent.isCtxPush, REvent.isCtxPop]
  by_cases huc : ContentRenderer.effective_use_cache r ph editable use_cache = true
  · cases hv : (ContentRenderer.get_cached_placeholder_content r st ph
        (language.getD r.request_language)).1 with
    | some cv =>
        rw [render_placeholder_eq_hit r st ctx ph language page editable use_cache
          nodelist width cv huc hv]
        obtain ⟨d, htd, hopt, _⟩ := gcc_spec r st ph (language.getD r.request_language)
        refine ⟨rfl, d, htd, ?_, ?_⟩ <;>
          rcases hopt with rfl | rfl <;> simp [REvent.isCtxPush, REvent.isCtxPop]
    | none =>
        rw [render_placeholder_eq_miss r st ctx ph language page editable use_cache
          nodelist width huc hv]
        obtain ⟨hstack, d, htd, hcnt, hle⟩ := freshCase
          (ContentRenderer.get_cached_placeholder_content r st ph
            (language.getD r.request_language)).2 true
        obtain ⟨dg, htg, hoptg, _⟩ := gcc_spec r st ph (language.getD r.request_language)
        refine ⟨hstack, dg ++ d, ?_, ?_, ?_⟩
        · rw [htd, htg, List.append_assoc]
        · rcases hoptg with rfl | rfl <;>
            simp [List.filter_append, REvent.isCtxPush, REvent.isCtxPop, hcnt]
        · rcases hoptg with rfl | rfl <;>
            simp [List.filter_append, REvent.isCtxPush, REvent.isCtxPop, hle]
  · have huc' : ContentRenderer.effective_use_cache r ph editable use_cache = false := by
      simpa using huc
    rw [render_placeholder_eq_fresh r st ctx ph language page editable use_cache
      nodelist width huc']
    exact freshCase st false

/-- A render with `editable=False` and no nodelist never logs an edit wrap or
a fallback render, and every rendered-placeholder record it adds is marked
non-editable. -/
theorem render_placeholder_noneditable_spec (r : Renderer) (st : RendererState)
    (ctx : Ctx) (ph : Placeholder) (language : Option String) (page : Option Page)
    (use_cache : Bool) (width : Option Nat) :
    ((ContentRenderer.render_placeholder r st ctx ph language page false use_cache
        none width).2.1.trace).filter REvent.isWrapOrFallback
      = st.trace.filter REvent.isWrapOrFallback
    ∧ ∀ e, e ∈ (ContentRenderer.render_placeholder r st ctx ph language page false
        use_cache none width).2.1.renderedPlaceholders →
        e ∈ st.renderedPlaceholders ∨ e.editable = false := by
  have hedf : ContentRenderer.effective_editable r false = false := rfl
  have freshCase : ∀ (st0 : RendererState) (uc : Bool),
      ((ContentRenderer.render_placeholder_fresh r st0 ctx ph
          (language.getD r.request_language) page
          (ContentRenderer.effective_editable r false) uc none width).2.1.trace).filter
        REvent.isWrapOrFallback = st0.trace.filter REvent.isWrapOrFallback
      ∧ ∀ e, e ∈ (ContentRenderer.render_placeholder_fresh r st0 ctx ph
          (language.getD r.request_language) page
          (ContentRenderer.effective_editable r false) uc none width).2.1.renderedPlaceholders →
          e ∈ st0.renderedPlaceholders ∨ e.editable = false := by
    intro st0 uc
    obtain ⟨outs, st1, ctx1, n, htr, _, _, hrp1, _, _, heq⟩ :=
      fresh_decompose r st0 ctx ph (language.getD r.request_language) page
        (ContentRenderer.effective_editable r false) uc none width
    rw [heq]
    obtain ⟨d1, d2, d3, ht, _, ho2, _, hn, _, he⟩ :=
      finish_render_trace_spec r ph (language.getD r.request_language)
        (ContentRenderer.effective_editable r false) uc none
        (String.join outs) (ctx1.sekizai.drop n) st1
    have hstate := finish_render_state_spec r ph (language.getD r.request_language)
      (ContentRenderer.effective_editable r false) uc none
      (String.join outs) (ctx1.sekizai.drop n) st1
    constructor
    · show ((ContentRenderer.finish_render r ph (language.getD r.request_language)
          (ContentRenderer.effective_editable r false) uc none
          (String.join outs) (ctx1.sekizai.drop n) st1).2.trace).filter
          REvent.isWrapOrFallback = _
      rw [ht, htr, hn rfl, he hedf]
      rcases ho2 with rfl | ⟨c2, s2, rfl⟩ <;>
        simp [List.filter_append, REvent.isWrapOrFallback]
    · intro e he'
      by_cases hmem : (st1.renderedPlaceholders.any fun x => x.placeholder.pk == ph.pk) = true
      · have := (hstate.2.2.1 hmem).1
        rw [this, hrp1] at he'
        exact Or.inl he'
      · have hm : (st1.renderedPlaceholders.any fun x => x.placeholder.pk == ph.pk) = false := by
          simpa using hmem
        have := (hstate.2.2.2 hm).1
        rw [this, hrp1] at he'
        rcases List.mem_append.mp he' with h | h
        · exact Or.inl h
        · rcases List.mem_singleton.mp h with rfl
          exact Or.inr hedf
  by_cases huc : ContentRenderer.effective_use_cache r ph false use_cache = true
  · cases hv : (ContentRenderer.get_cached_placeholder_content r st ph
        (language.getD r.request_language)).1 with
    | some cv =>
        rw [render_placeholder_eq_hit r st ctx ph language page false use_cache
          none width cv huc hv]
        obtain ⟨d, htd, hopt, _, hrend, _⟩ := gcc_spec r st ph (language.getD r.request_language)
        constructor
        · rw [htd]
          rcases hopt with rfl | rfl <;>
            simp [List.filter_append, REvent.isWrapOrFallback]
        · intro e he'
          rw [hrend] at he'
          exact Or.inl he'
    | none =>
        rw [render_placeholder_eq_miss r st ctx ph language page false use_cache
          none width huc hv]
        obtain ⟨dg, htg, hoptg, _, hrendg, _⟩ := gcc_spec r st ph (language.getD r.request_language)
        obtain ⟨hfilter, hmemb⟩ := freshCase
          (ContentRenderer.get_cached_placeholder_content r st ph
            (language.getD r.request_language)).2 true
        constructor
        · rw [hfilter, htg]
          rcases hoptg with rfl | rfl <;>
            simp [List.filter_append, REvent.isWrapOrFallback]
        · intro e he'
          rcases hmemb e he' with h | h
          · rw [hrendg] at h
            exact Or.inl h
          · exact Or.inr h
  · have huc' : ContentRenderer.effective_use_cache r ph false use_cache = false := by
      simpa using huc
    rw [render_placeholder_eq_fresh r st ctx ph language page false use_cache
      none width huc']
    exact freshCase st false

/-- Claim C10: whenever the inheritance walk obtains content from an
ancestor, the ancestor placeholder is rendered with `editable` forced to
false and with no template fallback nodelist, so the walk never logs an
edit-mode wrap or a fallback render, and every rendered-placeholder record
the walk adds is marked non-editable. -/
theorem C10_inherited_render_never_editable (r : Renderer) (ce : Bool) (slot : String)
    (pages : List Page) (st : RendererState) (ctx : Ctx) :
    ((ContentRenderer.inherit_from_ancestors r ce slot pages st ctx).2.1.trace).filter
        REvent.isWrapOrFallback = st.trace.filter REvent.isWrapOrFallback
    ∧ ∀ e, e ∈ (ContentRenderer.inherit_from_ancestors r ce slot pages st
        ctx).2.1.renderedPlaceholders →
        e ∈ st.renderedPlaceholders ∨ e.editable = false := by
  induction pages generalizing st ctx with
  | nil => exact ⟨rfl, fun e he => Or.inl he⟩
  | cons page rest ih =>
    simp only [ContentRenderer.inherit_from_ancestors]
    cases hlp : lookupPages st page.pk with
    | none => exact ⟨rfl, fun e he => Or.inl he⟩
    | some idx =>
      dsimp only
      cases hls : lookupSlot idx slot with
      | none => exact ih st ctx
      | some placeholder =>
        dsimp only
        by_cases hchk : (ce && !(!(placeholder.plugins_cache.getD []).isEmpty)) = true
        · simp only [if_pos hchk]
          obtain ⟨dg, htg, hoptg, _, hrendg, _⟩ :=
            gcc_spec r st placeholder r.request_language
          by_cases hhit : (!(placeholder.plugins_cache.getD []).isEmpty
              || (ContentRenderer.get_cached_placeholder_content r st placeholder
                  r.request_language).1.isSome) = true
          · simp only [if_pos hhit]
            obtain ⟨hfil, hmem⟩ := render_placeholder_noneditable_spec r
              (ContentRenderer.get_cached_placeholder_content r st placeholder
                r.request_language).2 ctx placeholder none (some page) true none
            constructor
            · rw [hfil, htg]
              rcases hoptg with rfl | rfl <;>
                simp [List.filter_append, REvent.isWrapOrFallback]
            · intro e he'
              rcases hmem e he' with h | h
              · rw [hrendg] at h
                exact Or.inl h
              · exact Or.inr h
          · simp only [if_neg hhit]
            obtain ⟨hfil, hmem⟩ := ih
              (ContentRenderer.get_cached_placeholder_content r st placeholder
                r.request_language).2 ctx
            constructor
            · rw [hfil, htg]
              rcases hoptg with rfl | rfl <;>
                simp [List.filter_append, REvent.isWrapOrFallback]
            · intro e he'
              rcases hmem e he' with h | h
              · rw [hrendg] at h
                exact Or.inl h
              · exact Or.inr h
        · simp only [if_neg hchk]
          by_cases hhit : (!(placeholder.plugins_cache.getD []).isEmpty || false) = true
          · simp only [if_pos hhit]
            exact render_placeholder_noneditable_spec r st ctx placeholder none
              (some page) true none
          · simp only [if_neg hhit]
            exact ih st ctx

/-- How one `render_placeholder` call changes the toolbar's `_cache_disabled`
flag: either it is left unchanged (cache-hit early return, or a duplicate
record — and on a cache hit the effective cache usage was true), or the
placeholder was recorded for the first time and the flag becomes its old
value or-ed with the negated effective cache usage. -/
theorem render_placeholder_cacheDisabled_spec (r : Renderer) (st : RendererState)
    (ctx : Ctx) (ph : Placeholder) (language : Option String) (page : Option Page)
    (editable use_cache : Bool) (nodelist : Option String) (width : Option Nat) :
    ((ContentRenderer.render_placeholder r st ctx ph language page editable use_cache
          nodelist width).2.1.cacheDisabled = st.cacheDisabled
      ∧ ((st.renderedPlaceholders.any fun e => e.placeholder.pk == ph.pk) = false →
          ContentRenderer.effective_use_cache r ph editable use_cache = true))
    ∨ ((st.renderedPlaceholders.any fun e => e.placeholder.pk == ph.pk) = false
        ∧ (ContentRenderer.render_placeholder r st ctx ph language page editable
            use_cache nodelist width).2.1.cacheDisabled
          = (st.cacheDisabled
              || !(ContentRenderer.effective_use_cache r ph editable use_cache))) := by
  have freshCase : ∀ (st0 : RendererState) (uc : Bool),
      ContentRenderer.effective_use_cache r ph editable use_cache = uc →
      st0.renderedPlaceholders = st.renderedPlaceholders →
      st0.cacheDisabled = st.cacheDisabled →
      ((ContentRenderer.render_placeholder_fresh r st0 ctx ph
            (language.getD r.request_language) page
            (ContentRenderer.effective_editable r editable) uc nodelist
            width).2.1.cacheDisabled = st.cacheDisabled
        ∧ ((st.renderedPlaceholders.any fun e => e.placeholder.pk == ph.pk) = false →
            ContentRenderer.effective_use_cache r ph editable use_cache = true))
      ∨ ((st.renderedPlaceholders.any fun e => e.placeholder.pk == ph.pk) = false
          ∧ (ContentRenderer.render_placeholder_fresh r st0 ctx ph
              (language.getD r.request_language) page
              (ContentRenderer.effective_editable r editable) uc nodelist
              width).2.1.cacheDisabled
            = (st.cacheDisabled
                || !(ContentRenderer.effective_use_cache r ph editable use_cache))) := by
    intro st0 uc hucv hrp0 hcd0
    obtain ⟨outs, st1, ctx1, n, _, _, _, hrp1, hcd1, _, heq⟩ :=
      fresh_decompose r st0 ctx ph (language.getD r.request_language) page
        (ContentRenderer.effective_editable r editable) uc nodelist width
    rw [heq]
    have hstate := finish_render_state_spec r ph (language.getD r.request_language)
      (ContentRenderer.effective_editable r editable) uc nodelist
      (String.join outs) (ctx1.sekizai.drop n) st1
    by_cases hmem : (st1.renderedPlaceholders.any fun e => e.placeholder.pk == ph.pk) = true
    · left
      constructor
      · show (ContentRenderer.finish_render r ph (language.getD r.request_language)
            (ContentRenderer.effective_editable r editable) uc nodelist
            (String.join outs) (ctx1.sekizai.drop n) st1).2.cacheDisabled = st.cacheDisabled
        rw [(hstate.2.2.1 hmem).2, hcd1, hcd0]
      · intro hfalse
        rw [hrp1, hrp0, hfalse] at hmem
        cases hmem
    · have hm : (st1.renderedPlaceholders.any fun e => e.placeholder.pk == ph.pk) = false := by
        simpa using hmem
      right
      constructor
      · rw [← hrp0, ← hrp1]
        exact hm
      · show (ContentRenderer.finish_render r ph (language.getD r.request_language)
            (ContentRenderer.effective_editable r editable) uc nodelist
            (String.join outs) (ctx1.sekizai.drop n) st1).2.cacheDisabled = _
        rw [(hstate.2.2.2 hm).2, hcd1, hcd0, hucv]
  by_cases huc : ContentRenderer.effective_use_cache r ph editable use_cache = true
  · cases hv : (ContentRenderer.get_cached_placeholder_content r st ph
        (language.getD r.request_language)).1 with
    | some cv =>
        rw [render_placeholder_eq_hit r st ctx ph language page editable use_cache
          nodelist width cv huc hv]
        obtain ⟨_, _, _, _, _, hcd⟩ := gcc_spec r st ph (language.getD r.request_language)
        exact Or.inl ⟨hcd, fun _ => huc⟩
    | none =>
        rw [render_placeholder_eq_miss r st ctx ph language page editable use_cache
          nodelist width huc hv]
        obtain ⟨_, _, _, _, hrend, hcd⟩ := gcc_spec r st ph (language.getD r.request_language)
        exact freshCase _ true huc hrend hcd
  · have huc' : ContentRenderer.effective_use_cache r ph editable use_cache = false := by
      simpa using huc
    rw [render_placeholder_eq_fresh r st ctx ph language page editable use_cache
      nodelist width huc']
    exact freshCase st false huc' rfl rfl

/-- How one `render_placeholder` call changes the rendered-placeholder
records: when a record with the same placeholder identity already exists the
sequence is unchanged (so the first-seen position is retained); at most the
one new record for this placeholder is appended otherwise. -/
theorem render_placeholder_rendered_spec (r : Renderer) (st : RendererState)
    (ctx : Ctx) (ph : Placeholder) (language : Option String) (page : Option Page)
    (editable use_cache : Bool) (nodelist : Option String) (width : Option Nat) :
    ((st.renderedPlaceholders.any fun e => e.placeholder.pk == ph.pk) = true →
        (ContentRenderer.render_placeholder r st ctx ph language page editable use_cache
            nodelist width).2.1.renderedPlaceholders = st.renderedPlaceholders)
    ∧ ((ContentRenderer.render_placeholder r st ctx ph language page editable use_cache
          nodelist width).2.1.renderedPlaceholders = st.renderedPlaceholders
        ∨ ∃ e : RenderedPlaceholder, e.placeholder = ph
            ∧ (ContentRenderer.render_placeholder r st ctx ph language page editable
                use_cache nodelist width).2.1.renderedPlaceholders
              = st.renderedPlaceholders ++ [e]) := by
  have freshCase : ∀ (st0 : RendererState) (uc : Bool),
      st0.renderedPlaceholders = st.renderedPlaceholders →
      ((st.renderedPlaceholders.any fun e => e.placeholder.pk == ph.pk) = true →
          (ContentRenderer.render_placeholder_fresh r st0 ctx ph
              (language.getD r.request_language) page
              (ContentRenderer.effective_editable r editable) uc nodelist
              width).2.1.renderedPlaceholders = st.renderedPlaceholders)
      ∧ ((ContentRenderer.render_placeholder_fresh r st0 ctx ph
            (language.getD r.request_language) page
            (ContentRenderer.effective_editable r editable) uc nodelist
            width).2.1.renderedPlaceholders = st.renderedPlaceholders
          ∨ ∃ e : RenderedPlaceholder, e.placeholder = ph
              ∧ (ContentRenderer.render_placeholder_fresh r st0 ctx ph
                  (language.getD r.request_language) page
                  (ContentRenderer.effective_editable r editable) uc nodelist
                  width).2.1.renderedPlaceholders
                = st.renderedPlaceholders ++ [e]) := by
    intro st0 uc hrp0
    obtain ⟨outs, st1, ctx1, n, _, _, _, hrp1, _, _, heq⟩ :=
      fresh_decompose r st0 ctx ph (language.getD r.request_language) page
        (ContentRenderer.effective_editable r editable) uc nodelist width
    rw [heq]
    have hstate := finish_render_state_spec r ph (language.getD r.request_language)
      (ContentRenderer.effective_editable r editable) uc nodelist
      (String.join outs) (ctx1.sekizai.drop n) st1
    by_cases hmem : (st1.renderedPlaceholders.any fun e => e.placeholder.pk == ph.pk) = true
    · have hunch : (ContentRenderer.finish_render r ph (language.getD r.request_language)
          (ContentRenderer.effective_editable r editable) uc nodelist
          (String.join outs) (ctx1.sekizai.drop n) st1).2.renderedPlaceholders
            = st.renderedPlaceholders := by
        rw [(hstate.2.2.1 hmem).1, hrp1, hrp0]
      exact ⟨fun _ => hunch, Or.inl hunch⟩
    · have hm : (st1.renderedPlaceholders.any fun e => e.placeholder.pk == ph.pk) = false := by
        simpa using hmem
      have happ : (ContentRenderer.finish_render r ph (language.getD r.request_language)
          (ContentRenderer.effective_editable r editable) uc nodelist
          (String.join outs) (ctx1.sekizai.drop n) st1).2.renderedPlaceholders
            = st.renderedPlaceholders
              ++ [{ placeholder := ph, language := language.getD r.request_language,
                    site_id := r.site_id, cached := uc,
                    editable := ContentRenderer.effective_editable r editable }] := by
        rw [(hstate.2.2.2 hm).1, hrp1, hrp0]
      constructor
      · intro hmemSt
        rw [hrp1, hrp0, hmemSt] at hmem
        cases hmem rfl
      · exact Or.inr ⟨_, rfl, happ⟩
  by_cases huc : ContentRenderer.effective_use_cache r ph editable use_cache = true
  · cases hv : (ContentRenderer.get_cached_placeholder_content r st ph
        (language.getD r.request_language)).1 with
    | some cv =>
        rw [render_placeholder_eq_hit r st ctx ph language page editable use_cache
          nodelist width cv huc hv]
        obtain ⟨_, _, _, _, hrend, _⟩ := gcc_spec r st ph (language.getD r.request_language)
        exact ⟨fun _ => hrend, Or.inl hrend⟩
    | none =>
        rw [render_placeholder_eq_miss r st ctx ph language page editable use_cache
          nodelist width huc hv]
        obtain ⟨_, _, _, _, hrend, _⟩ := gcc_spec r st ph (language.getD r.request_language)
        exact freshCase _ true hrend
  · have huc' : ContentRenderer.effective_use_cache r ph editable use_cache = false := by
      simpa using huc
    rw [render_placeholder_eq_fresh r st ctx ph language page editable use_cache
      nodelist width huc']
    exact freshCase st false rfl

/-- A collaborator environment for concrete runs: the external cache is
empty, placeholders have no persisted plugins, every plugin type exists and
renders `"OUT" ++ pk`, and the toolbar descriptors are empty strings. -/
def exampleEnv : Env :=
  { get_placeholder_cache := fun _ _ _ => none,
    assign_plugins := fun _ _ _ => [],
    has_instance := fun _ => true,
    render_plugin_flag := fun _ => true,
    plugin_output := fun pk => "OUT" ++ toString pk,
    plugin_sekizai := fun _ => [],
    get_extra_context := fun _ _ => [],
    placeholder_toolbar_js := fun _ _ => "",
    plugin_toolbar_js := fun _ => "" }

/-- An initial template context: one empty frame, no sekizai data. -/
def exampleCtx : Ctx := ⟨[[]], []⟩

/-- A non-staff, non-editing renderer with the placeholder cache setting
enabled. -/
def signalRenderer : Renderer :=
  { request_language := "en", site_id := 1, is_staff := false,
    edit_mode_active := false, placeholder_cache_setting := true,
    current_page := none, env := exampleEnv }

/-- Three placeholders; only the second opts out of caching. -/
def signalPh1 : Placeholder := ⟨11, "a", true, none, none⟩

/-- The non-cacheable middle placeholder. -/
def signalPh2 : Placeholder := ⟨12, "b", false, none, none⟩

/-- The third, cacheable placeholder. -/
def signalPh3 : Placeholder := ⟨13, "c", true, none, none⟩

/-- Rendering the three placeholders in sequence within one request. -/
def signalRun1 : String × RendererState × Ctx :=
  ContentRenderer.render_placeholder signalRenderer RendererState.initial exampleCtx
    signalPh1 none none false true none none

/-- Second render of the sequence. -/
def signalRun2 : String × RendererState × Ctx :=
  ContentRenderer.render_placeholder signalRenderer signalRun1.2.1 signalRun1.2.2
    signalPh2 none none false true none none

/-- Third render of the sequence. -/
def signalRun3 : String × RendererState × Ctx :=
  ContentRenderer.render_placeholder signalRenderer signalRun2.2.1 signalRun2.2.2
    signalPh3 none none false true none none

/-- Claim C5: the response-cacheable signal (the negation of the toolbar's
`_cache_disabled` flag) is set, the first time each distinct placeholder is
recorded, to whether caching was actually used for it, and once it reads
"not cacheable" no later render resets it (first false wins): concretely,
rendering three placeholders of which only the second was not cacheable
leaves the signal at "not cacheable", even though the first render left it
at "cacheable". -/
theorem C5_first_false_wins_cache_signal :
    (∀ (r : Renderer) (st : RendererState) (ctx : Ctx) (ph : Placeholder)
        (language : Option String) (page : Option Page) (editable use_cache : Bool)
        (nodelist : Option String) (width : Option Nat),
      st.cacheDisabled = true →
        (ContentRenderer.render_placeholder r st ctx ph language page editable
            use_cache nodelist width).2.1.cacheDisabled = true)
    ∧ (∀ (r : Renderer) (st : RendererState) (ctx : Ctx) (ph : Placeholder)
        (language : Option String) (page : Option Page) (editable use_cache : Bool)
        (nodelist : Option String) (width : Option Nat),
      st.cacheDisabled = false →
      (st.renderedPlaceholders.any fun e => e.placeholder.pk == ph.pk) = false →
        (ContentRenderer.render_placeholder r st ctx ph language page editable
            use_cache nodelist width).2.1.cacheDisabled
          = !(ContentRenderer.effective_use_cache r ph editable use_cache))
    ∧ signalRun1.2.1.cacheDisabled = false
    ∧ signalRun2.2.1.cacheDisabled = true
    ∧ signalRun3.2.1.cacheDisabled = true
    ∧ (signalRun3.2.1.renderedPlaceholders.map fun e => e.cached) = [true, false, true] := by
  refine ⟨?_, ?_, ?_, ?_, ?_, ?_⟩
  · intro r st ctx ph language page editable use_cache nodelist width hcd
    rcases render_placeholder_cacheDisabled_spec r st ctx ph language page editable
        use_cache nodelist width with ⟨hpres, _⟩ | ⟨_, hval⟩
    · rw [hpres, hcd]
    · rw [hval, hcd, Bool.true_or]
  · intro r st ctx ph language page editable use_cache nodelist width hcd hmem
    rcases render_placeholder_cacheDisabled_spec r st ctx ph language page editable
        use_cache nodelist width with ⟨hpres, himp⟩ | ⟨_, hval⟩
    · rw [hpres, hcd, himp hmem]
      rfl
    · rw [hval, hcd, Bool.false_or]
  · rfl
  · rfl
  · rfl
  · rfl

/-- Witness for C5: applying the monotonicity part after the second concrete
render (where the signal already reads "not cacheable") keeps it that way. -/
theorem C5_first_false_wins_cache_signal_witness :
    (ContentRenderer.render_placeholder signalRenderer signalRun2.2.1 signalRun2.2.2
        signalPh3 none none false true none none).2.1.cacheDisabled = true :=
  C5_first_false_wins_cache_signal.1 signalRenderer signalRun2.2.1 signalRun2.2.2
    signalPh3 none none false true none none (by rfl)

/-- A renderer for the deduplication scenario: cache setting off, so every
render takes the fresh path and reaches the record step. -/
def dedupRenderer : Renderer :=
  { request_language := "en", site_id := 1, is_staff := false,
    edit_mode_active := false, placeholder_cache_setting := false,
    current_page := none, env := exampleEnv }

/-- First render of placeholder 11, with the request language. -/
def dedupRun1 : String × RendererState × Ctx :=
  ContentRenderer.render_placeholder dedupRenderer RendererState.initial exampleCtx
    signalPh1 none none false true none none

/-- A render of a different placeholder in between. -/
def dedupRun2 : String × RendererState × Ctx :=
  ContentRenderer.render_placeholder dedupRenderer dedupRun1.2.1 dedupRun1.2.2
    signalPh2 none none false true none none

/-- Second render of placeholder 11, with a different explicit language and
a different `editable` argument. -/
def dedupRun3 : String × RendererState × Ctx :=
  ContentRenderer.render_placeholder dedupRenderer dedupRun2.2.1 dedupRun2.2.2
    signalPh1 (some "fr") none true true none none

/-- Claim C6: `RenderedPlaceholder` equality (and its hash key) are defined
by placeholder identity alone, so a placeholder that already has a record
never gains a second one and the sequence — hence the first-seen position —
is unchanged; rendering placeholder 11 twice with different language and
editable arguments around a render of placeholder 12 yields exactly the two
records `[11, 12]`, the first retaining its first-seen language `"en"`. -/
theorem C6_rendered_placeholder_dedup :
    (∀ a b : RenderedPlaceholder,
        RenderedPlaceholder.eq a b = (a.placeholder.pk == b.placeholder.pk))
    ∧ (∀ a : RenderedPlaceholder, RenderedPlaceholder.hashKey a = a.placeholder.pk)
    ∧ (∀ (r : Renderer) (st : RendererState) (ctx : Ctx) (ph : Placeholder)
        (language : Option String) (page : Option Page) (editable use_cache : Bool)
        (nodelist : Option String) (width : Option Nat),
      (st.renderedPlaceholders.any fun e => e.placeholder.pk == ph.pk) = true →
        (ContentRenderer.render_placeholder r st ctx ph language page editable
            use_cache nodelist width).2.1.renderedPlaceholders
          = st.renderedPlaceholders)
    ∧ (dedupRun3.2.1.renderedPlaceholders.map fun e => (e.placeholder.pk, e.language))
        = [(11, "en"), (12, "en")] := by
  refine ⟨fun a b => rfl, fun a => rfl, ?_, ?_⟩
  · intro r st ctx ph language page editable use_cache nodelist width hmem
    exact (render_placeholder_rendered_spec r st ctx ph language page editable
      use_cache nodelist width).1 hmem
  · rfl

/-- Witness for C6: applying the dedup part to the concrete state after the
first two renders (placeholder 11 already recorded) leaves the records
unchanged. -/
theorem C6_rendered_placeholder_dedup_witness :
    (ContentRenderer.render_placeholder dedupRenderer dedupRun2.2.1 dedupRun2.2.2
        signalPh1 (some "fr") none true true none none).2.1.renderedPlaceholders
      = dedupRun2.2.1.renderedPlaceholders :=
  C6_rendered_placeholder_dedup.2.2.1 dedupRenderer dedupRun2.2.1 dedupRun2.2.2
    signalPh1 (some "fr") none true true none none (by rfl)

/-- The state left by a preload call lists the page's own index entry
first. -/
theorem preload_pagesCache_cons (r : Renderer) (st : RendererState) (pk : Nat)
    (parent : Option Page) (template : String) (phs : List Placeholder)
    (declared : List DeclaredPlaceholder) (slots : Option (List String))
    (inherit : Bool) :
    ∃ idx rest,
      (ContentRenderer.preload_placeholders_for_page r st
          (Page.mk pk parent template phs declared) slots inherit).pagesCache
        = (pk, idx) :: rest := by
  apply Exists.intro
  apply Exists.intro
  unfold ContentRenderer.preload_placeholders_for_page
  rfl

/-- Preloading a page always records a slot index for that page. -/
theorem preload_primes (r : Renderer) (st : RendererState) (page : Page)
    (slots : Option (List String)) (inherit : Bool) :
    (lookupPages
        (ContentRenderer.preload_placeholders_for_page r st page slots inherit)
        page.pk).isSome = true := by
  cases page with
  | mk pk parent template phs declared =>
    obtain ⟨idx, rest, hcons⟩ := preload_pagesCache_cons r st pk parent template
      phs declared slots inherit
    show (lookupPages _ (Page.mk pk parent template phs declared).pk).isSome = true
    unfold lookupPages
    rw [show (Page.mk pk parent template phs declared).pk = pk from rfl, hcons]
    simp [List.find?]

/-- Claim C8: resolving a page plus slot raises the `PlaceholderNotFound`
condition exactly when, after the preload step has populated the page's
slot index, the slot is still absent from that index; when the slot is
present the resolved placeholder is returned. -/
theorem C8_placeholder_not_found (r : Renderer) (st : RendererState) (ctx : Ctx)
    (page : Page) (slot : String) :
    ∃ idx, lookupPages (ContentRenderer.get_page_placeholder r st ctx page slot).2
        page.pk = some idx
      ∧ (lookupSlot idx slot = none ↔
          (ContentRenderer.get_page_placeholder r st ctx page slot).1
            = Except.error ("\"" ++ slot ++ "\" placeholder not found"))
      ∧ (∀ pl, lookupSlot idx slot = some pl →
          (ContentRenderer.get_page_placeholder r st ctx page slot).1 = Except.ok pl) := by
  unfold ContentRenderer.get_page_placeholder
  by_cases hprimed : (lookupPages st page.pk).isNone = true
  · rw [if_pos hprimed]
    obtain ⟨idx, hidx⟩ := Option.isSome_iff_exists.mp
      (preload_primes r st page none false)
    refine ⟨idx, ?_, ?_, ?_⟩
    · cases hs : lookupSlot idx slot <;> simp [hidx, hs]
    · cases hs : lookupSlot idx slot <;> simp [hidx, hs]
    · intro pl hs
      simp [hidx, hs]
  · rw [if_neg hprimed]
    have hsome : (lookupPages st page.pk).isSome = true := by
      cases hlp : lookupPages st page.pk with
      | none => rw [hlp] at hprimed; simp at hprimed
      | some idx => rfl
    obtain ⟨idx, hidx⟩ := Option.isSome_iff_exists.mp hsome
    refine ⟨idx, ?_, ?_, ?_⟩
    · cases hs : lookupSlot idx slot <;> simp [hidx, hs]
    · cases hs : lookupSlot idx slot <;> simp [hidx, hs]
    · intro pl hs
      simp [hidx, hs]

/-- Witness for C8: on a concrete page declaring only slot `"a"`, resolving
`"a"` returns its placeholder, discharged through the theorem. -/
theorem C8_placeholder_not_found_witness :
    (ContentRenderer.get_page_placeholder dedupRenderer RendererState.initial exampleCtx
        (Page.mk 40 none "base.html" [⟨41, "a", true, none, none⟩] [⟨"a", false⟩])
        "a").1
      = Except.ok (⟨41, "a", true, none, some []⟩ : Placeholder) := by
  obtain ⟨idx, hidx, _, hok⟩ := C8_placeholder_not_found dedupRenderer
    RendererState.initial exampleCtx
    (Page.mk 40 none "base.html" [⟨41, "a", true, none, none⟩] [⟨"a", false⟩]) "a"
  have hval : lookupPages (ContentRenderer.get_page_placeholder dedupRenderer
      RendererState.initial exampleCtx
      (Page.mk 40 none "base.html" [⟨41, "a", true, none, none⟩] [⟨"a", false⟩])
      "a").2
      (Page.mk 40 none "base.html" [⟨41, "a", true, none, none⟩]
        [⟨"a", false⟩]).pk
      = some [("a", (⟨41, "a", true, none, some []⟩ : Placeholder))] := rfl
  rw [hval] at hidx
  have hidxeq : idx = [("a", (⟨41, "a", true, none, some []⟩ : Placeholder))] :=
    (Option.some_inj.mp hidx).symm
  exact hok _ (by rw [hidxeq]; rfl)

/-- Two request-scoped cache lookups for the same key when the external
store is empty (`dedupRenderer`'s store always returns absent). -/
def absentLookup1 : Option CachedValue × RendererState :=
  ContentRenderer.get_cached_placeholder_content dedupRenderer RendererState.initial
    signalPh1 "en"

/-- The second lookup for the same (site, language, placeholder) key within
the same request. -/
def absentLookup2 : Option CachedValue × RendererState :=
  ContentRenderer.get_cached_placeholder_content dedupRenderer absentLookup1.2
    signalPh1 "en"

/-- Counterexample to claim C1 as stated: when the external store returns
absent, the miss is NOT memoized — the first lookup queries the external
cache collaborator once, and the second lookup for the same
(site, language, placeholder) key within the same request queries it AGAIN
(two consultations in the trace, where the claim's "absent memo" would allow
only one). -/
theorem C1_absent_memo_counterexample :
    (absentLookup1.2.trace.filter REvent.isExternalCacheGet).length = 1
    ∧ (absentLookup2.2.trace.filter REvent.isExternalCacheGet).length = 2 := by
  constructor <;> rfl

/-- Claim C1, amended: the first lookup for a (site, language, placeholder)
key that misses the request-scoped memo queries the external cache
collaborator exactly once and returns its answer, but memoizes the result
only when the external store returned a value ("None means nothing in the
cache"): after a hit, a second lookup within the request is answered from
the memo without consulting the external store again; after an absent
result nothing is memoized, and a second lookup queries the external store
a second time. -/
theorem C1_memoizes_only_hits (r : Renderer) (st : RendererState) (ph : Placeholder)
    (lang : String)
    (hmiss : lookupContent st (r.site_id, lang, ph.pk) = none) :
    ((ContentRenderer.get_cached_placeholder_content r st ph lang).2.trace
        = st.trace ++ [REvent.extCacheGet ph.pk lang r.site_id])
    ∧ (ContentRenderer.get_cached_placeholder_content r st ph lang).1
        = r.env.get_placeholder_cache ph.pk lang r.site_id
    ∧ (∀ cv, r.env.get_placeholder_cache ph.pk lang r.site_id = some cv →
        lookupContent (ContentRenderer.get_cached_placeholder_content r st ph lang).2
            (r.site_id, lang, ph.pk) = some cv
        ∧ ContentRenderer.get_cached_placeholder_content r
            (ContentRenderer.get_cached_placeholder_content r st ph lang).2 ph lang
          = (some cv, (ContentRenderer.get_cached_placeholder_content r st ph lang).2))
    ∧ (r.env.get_placeholder_cache ph.pk lang r.site_id = none →
        lookupContent (ContentRenderer.get_cached_placeholder_content r st ph lang).2
            (r.site_id, lang, ph.pk) = none
        ∧ (ContentRenderer.get_cached_placeholder_content r
            (ContentRenderer.get_cached_placeholder_content r st ph lang).2 ph
            lang).2.trace
          = st.trace ++ [REvent.extCacheGet ph.pk lang r.site_id,
              REvent.extCacheGet ph.pk lang r.site_id]) := by
  have hmiss' : (lookupContent st (r.site_id, lang, ph.pk)).isNone = true := by
    rw [hmiss]; rfl
  cases henv : r.env.get_placeholder_cache ph.pk lang r.site_id with
  | some cv =>
      have htrace : (ContentRenderer.get_cached_placeholder_content r st ph lang).2.trace
          = st.trace ++ [REvent.extCacheGet ph.pk lang r.site_id] := by
        unfold ContentRenderer.get_cached_placeholder_content
        rw [if_pos hmiss', henv]
        rfl
      have hlook : lookupContent (ContentRenderer.get_cached_placeholder_content r st
          ph lang).2 (r.site_id, lang, ph.pk) = some cv := by
        unfold ContentRenderer.get_cached_placeholder_content
        rw [if_pos hmiss', henv]
        exact lookupContent_insert_self (st.log (.extCacheGet ph.pk lang r.site_id))
          (r.site_id, lang, ph.pk) cv
      have hval : (ContentRenderer.get_cached_placeholder_content r st ph lang).1
          = some cv := by
        unfold ContentRenderer.get_cached_placeholder_content
        rw [if_pos hmiss', henv]
        exact lookupContent_insert_self (st.log (.extCacheGet ph.pk lang r.site_id))
          (r.site_id, lang, ph.pk) cv
      refine ⟨htrace, hval, ?_, ?_⟩
      · intro cv' hcv'
        have hcv : cv' = cv := (Option.some_inj.mp hcv').symm
        subst hcv
        refine ⟨hlook, ?_⟩
        generalize hG : ContentRenderer.get_cached_placeholder_content r st ph lang
          = G at hlook ⊢
        unfold ContentRenderer.get_cached_placeholder_content
        dsimp only
        rw [show (lookupContent G.2 (r.site_id, lang, ph.pk)).isNone = false from by
          rw [hlook]; rfl]
        simp only [Bool.false_eq_true, if_false]
        rw [hlook]
      · intro habs
        cases habs
  | none =>
      have htrace : (ContentRenderer.get_cached_placeholder_content r st ph lang).2.trace
          = st.trace ++ [REvent.extCacheGet ph.pk lang r.site_id] := by
        unfold ContentRenderer.get_cached_placeholder_content
        rw [if_pos hmiss', henv]
        rfl
      have hcc : (ContentRenderer.get_cached_placeholder_content r st ph
          lang).2.contentCache = st.contentCache := by
        unfold ContentRenderer.get_cached_placeholder_content
        rw [if_pos hmiss', henv]
        rfl
      have hlook : lookupContent (ContentRenderer.get_cached_placeholder_content r st
          ph lang).2 (r.site_id, lang, ph.pk) = none := by
        unfold lookupContent
        rw [hcc]
        unfold lookupContent at hmiss
        exact hmiss
      have hval : (ContentRenderer.get_cached_placeholder_content r st ph lang).1
          = none := by
        unfold ContentRenderer.get_cached_placeholder_content
        rw [if_pos hmiss', henv]
        dsimp only
        rw [lookupContent_log, hmiss]
      refine ⟨htrace, hval, ?_, ?_⟩
      · intro cv' hcv'
        cases hcv'
      · intro _
        refine ⟨hlook, ?_⟩
        generalize hG : ContentRenderer.get_cached_placeholder_content r st ph lang
          = G at hlook htrace ⊢
        unfold ContentRenderer.get_cached_placeholder_content
        dsimp only
        rw [show (lookupContent G.2 (r.site_id, lang, ph.pk)).isNone = true from by
          rw [hlook]; rfl]
        simp only [if_true]
        rw [henv]
        show (G.2.log (REvent.extCacheGet ph.pk lang r.site_id)).trace = _
        rw [RendererState.log_trace, htrace, List.append_assoc]
        rfl

/-- A renderer whose external cache store always returns a record. -/
def hitRenderer : Renderer :=
  { signalRenderer with
      env := { exampleEnv with get_placeholder_cache := fun _ _ _ => some ⟨"HIT", []⟩ } }

/-- Witness for the amended C1: with a populated external store and a fresh
request memo, the second lookup is answered from the memo with the state
unchanged. -/
theorem C1_memoizes_only_hits_witness :
    ContentRenderer.get_cached_placeholder_content hitRenderer
        (ContentRenderer.get_cached_placeholder_content hitRenderer
          RendererState.initial signalPh1 "en").2 signalPh1 "en"
      = (some ⟨"HIT", []⟩,
         (ContentRenderer.get_cached_placeholder_content hitRenderer
           RendererState.initial signalPh1 "en").2) :=
  ((C1_memoizes_only_hits hitRenderer RendererState.initial signalPh1 "en" rfl).2.2.1
    ⟨"HIT", []⟩ rfl).2

/-- Environment for the inheritance scenario: the external store is empty,
the content-loading collaborator attaches one plugin (pk 7) to the parent's
"banner" placeholder (pk 2) and nothing to any other placeholder, every
plugin type renders through the output function `O`, and the toolbar
descriptors are empty. -/
def inheritEnv (O : Nat → String) : Env :=
  { get_placeholder_cache := fun _ _ _ => none,
    assign_plugins := fun pk _ _ => if pk == 2 then [.node 7 []] else [],
    has_instance := fun _ => true,
    render_plugin_flag := fun _ => true,
    plugin_output := O,
    plugin_sekizai := fun _ => [],
    get_extra_context := fun _ _ => [],
    placeholder_toolbar_js := fun _ _ => "",
    plugin_toolbar_js := fun _ => "" }

/-- Parent page (pk 20) with a non-empty "banner" placeholder (pk 2); the
template declares "banner" with the given inherit flag. -/
def inheritParentPage (inh : Bool) : Page :=
  .mk 20 none "base.html" [⟨2, "banner", true, none, none⟩] [⟨"banner", inh⟩]

/-- Child page (pk 10) whose "banner" placeholder (pk 1) is empty, with the
parent page above. -/
def inheritChildPage (inh : Bool) : Page :=
  .mk 10 (some (inheritParentPage inh)) "base.html" [⟨1, "banner", true, none, none⟩]
    [⟨"banner", inh⟩]

/-- A non-staff renderer on the child page, with the given edit-session and
declared-inherit flags and plugin output function (placeholder cache setting
off, so every path is a fresh render). -/
def inheritRenderer (edit inh : Bool) (O : Nat → String) : Renderer :=
  { request_language := "en", site_id := 1, is_staff := false, edit_mode_active := edit,
    placeholder_cache_setting := false, current_page := some (inheritChildPage inh),
    env := inheritEnv O }

/-- Counterexample to claim C3 as stated: in the exact scenario of the claim
(child's "banner" empty, parent's "banner" non-empty — it renders "OUT7" —
slot declared inheritable, inheritance requested by the tag), rendering
outside an edit session returns the parent's content, but rendering inside
an active edit session does NOT return empty content: it returns the
child's own edit-mode output, which is the placeholder edit scaffolding — a
non-empty string (only the plugin content inside it is empty). -/
theorem C3_edit_mode_not_empty_counterexample :
    (ContentRenderer.render_page_placeholder
        (inheritRenderer false true (fun pk => "OUT" ++ toString pk))
        RendererState.initial exampleCtx "banner" true none).1 = Except.ok "OUT7"
    ∧ (ContentRenderer.render_page_placeholder
        (inheritRenderer true true (fun pk => "OUT" ++ toString pk))
        RendererState.initial exampleCtx "banner" true none).1
      = Except.ok (placeholderEditTemplate "" "" "" 1)
    ∧ placeholderEditTemplate "" "" "" 1 ≠ "" := by
  refine ⟨?_, ?_, ?_⟩
  · rfl
  · rfl
  · decide

/-- Claim C3, amended: for the child/parent scenario above with any plugin
output function (child's "banner" empty, parent's "banner" holding plugin 7):
outside an edit session with the slot declared inheritable, rendering the
slot with inheritance requested returns the parent's content (the joined
output of the parent's plugins); inside an active edit session it returns
the child's own edit-mode output whose plugin-content part is empty (edit
scaffolding only, never the parent's content); and with the slot not marked
inheritable in the template declaration it returns empty content. -/
theorem C3_inheritance_resolution_amended (O : Nat → String) :
    ((ContentRenderer.render_page_placeholder (inheritRenderer false true O)
        RendererState.initial exampleCtx "banner" true none).1
      = Except.ok (String.join [O 7]))
    ∧ ((ContentRenderer.render_page_placeholder (inheritRenderer true true O)
        RendererState.initial exampleCtx "banner" true none).1
      = Except.ok (placeholderEditTemplate "" "" "" 1))
    ∧ ((ContentRenderer.render_page_placeholder (inheritRenderer false false O)
        RendererState.initial exampleCtx "banner" true none).1
      = Except.ok "") := by
  refine ⟨?_, ?_, ?_⟩ <;>
    simp [ContentRenderer.render_page_placeholder,
      ContentRenderer.render_page_placeholder_inner,
      ContentRenderer.get_page_placeholder,
      ContentRenderer.preload_placeholders_for_page,
      ContentRenderer.render_placeholder,
      ContentRenderer.render_placeholder_fresh,
      ContentRenderer.finish_render,
      ContentRenderer.apply_fallback, ContentRenderer.store_in_cache,
      ContentRenderer.record_rendered, ContentRenderer.apply_edit_wrap,
      ContentRenderer.apply_width,
      ContentRenderer.render_plugins, ContentRenderer.get_plugins_to_render,
      ContentRenderer.render_plugin_list, ContentRenderer.render_plugin,
      ContentRenderer.get_cached_placeholder_content,
      ContentRenderer.get_editable_placeholder_context,
      ContentRenderer.inherit_from_ancestors,
      ContentRenderer.placeholder_cache_is_enabled,
      ContentRenderer.effective_use_cache, ContentRenderer.effective_editable,
      Renderer.placeholders_are_editable,
      inheritRenderer, inheritEnv, inheritChildPage, inheritParentPage,
      exampleCtx, RendererState.initial, RendererState.log,
      RendererState.renderedPluginsFor, RendererState.addRenderedPlugin,
      lookupPages, lookupSlot, lookupContent, get_page_ancestors,
      Ctx.push, Ctx.pop, Ctx.set, Ctx.containsKey,
      Page.pk, Page.parent, Page.parent_id, Page.get_template, Page.placeholders,
      Page.declared, Plugin.pk, RenderedPlaceholder.eq, Placeholder.modelEq,
      List.find?, List.filter, String.join, placeholderEditTemplate]

/-- Environment for the ancestor-walk scenario: the content-loading
collaborator attaches one plugin (pk 9) to placeholder 3 (the parent's "t"
placeholder) and nothing elsewhere. -/
def walkEnv : Env :=
  { exampleEnv with assign_plugins := fun pk _ _ => if pk == 3 then [.node 9 []] else [] }

/-- Grandparent page (pk 30), never preloaded in the scenario. -/
def walkPageG : Page :=
  .mk 30 none "base.html" [⟨5, "s", true, none, none⟩, ⟨6, "t", true, none, none⟩]
    [⟨"s", false⟩, ⟨"t", true⟩]

/-- Parent page (pk 20): its "t" placeholder (pk 3) has content, its "s"
placeholder (pk 4) exists but "s" is not declared inheritable. -/
def walkPageP : Page :=
  .mk 20 (some walkPageG) "base.html" [⟨4, "s", true, none, none⟩, ⟨3, "t", true, none, none⟩]
    [⟨"s", false⟩, ⟨"t", true⟩]

/-- Current page (pk 10): both its placeholders are empty. -/
def walkPageC : Page :=
  .mk 10 (some walkPageP) "base.html" [⟨1, "s", true, none, none⟩, ⟨2, "t", true, none, none⟩]
    [⟨"s", false⟩, ⟨"t", true⟩]

/-- A non-staff, non-editing renderer on the current page with the cache
setting off. -/
def walkRenderer : Renderer :=
  { request_language := "en", site_id := 1, is_staff := false, edit_mode_active := false,
    placeholder_cache_setting := false, current_page := some walkPageC, env := walkEnv }

/-- Counterexample to claim C2 as stated, from a single public call on a
fresh request state: rendering slot "s" (declared `inherit=false`, so the
preload recursion primes the parent only for slot "t") with the template
tag's inherit option walks the ancestors; the parent's index lacks "s" and
is skipped, but the grandparent's index was never primed and the walk
raises an uncaught `KeyError` instead of skipping it — the render fails
rather than returning the current page's empty result. -/
theorem C2_unprimed_ancestor_raises_counterexample :
    (ContentRenderer.render_page_placeholder walkRenderer RendererState.initial
        exampleCtx "s" true none).1
      = Except.error "KeyError: 30" := rfl

/-- Claim C2, amended: during the walk, an ancestor whose index is primed
but lacks the slot is skipped with no state change and no fresh load; an
ancestor whose index was never primed makes the walk fail with a `KeyError`
(it is the immediate-parent check before the walk, not the walk itself,
that treats an unprimed index as "no inheritable content"); if every
ancestor is primed-but-missing the walk returns no content; and when the
walk returns no content, `render_page_placeholder` returns the current
page's (empty) result. -/
theorem C2_ancestor_walk_amended :
    (∀ (r : Renderer) (ce : Bool) (slot : String) (page : Page) (rest : List Page)
        (st : RendererState) (ctx : Ctx) (idx : List (String × Placeholder)),
      lookupPages st page.pk = some idx →
      lookupSlot idx slot = none →
        ContentRenderer.inherit_from_ancestors r ce slot (page :: rest) st ctx
          = ContentRenderer.inherit_from_ancestors r ce slot rest st ctx)
    ∧ (∀ (r : Renderer) (ce : Bool) (slot : String) (page : Page) (rest : List Page)
        (st : RendererState) (ctx : Ctx),
      lookupPages st page.pk = none →
        ContentRenderer.inherit_from_ancestors r ce slot (page :: rest) st ctx
          = (Except.error ("KeyError: " ++ toString page.pk), st, ctx))
    ∧ (∀ (r : Renderer) (ce : Bool) (slot : String) (pages : List Page)
        (st : RendererState) (ctx : Ctx),
      (∀ page ∈ pages, ∃ idx, lookupPages st page.pk = some idx
          ∧ lookupSlot idx slot = none) →
        ContentRenderer.inherit_from_ancestors r ce slot pages st ctx
          = (Except.ok none, st, ctx))
    ∧ (∀ (r : Renderer) (st st1 st2 : RendererState) (ctx ctx1 ctx2 : Ctx)
        (slot : String) (nodelist : Option String) (cp : Page) (ppk : Nat),
      r.current_page = some cp →
      r.edit_mode_active = false →
      ContentRenderer.render_page_placeholder_inner r st ctx slot cp true nodelist
        = (Except.ok "", st1, ctx1) →
      cp.parent_id = some ppk →
      (lookupPages st1 ppk).isSome = true →
      ContentRenderer.inherit_from_ancestors r
          (ContentRenderer.placeholder_cache_is_enabled r) slot
          (get_page_ancestors cp) st1 ctx1
        = (Except.ok none, st2, ctx2) →
      ContentRenderer.render_page_placeholder r st ctx slot true nodelist
        = (Except.ok "", st2, ctx2)) := by
  refine ⟨?_, ?_, ?_, ?_⟩
  · intro r ce slot page rest st ctx idx h1 h2
    simp only [ContentRenderer.inherit_from_ancestors, h1, h2]
  · intro r ce slot page rest st ctx h1
    simp only [ContentRenderer.inherit_from_ancestors, h1]
  · intro r ce slot pages st ctx hall
    induction pages with
    | nil => simp only [ContentRenderer.inherit_from_ancestors]
    | cons page rest ih =>
      obtain ⟨idx, h1, h2⟩ := hall page (List.mem_cons_self page rest)
      simp only [ContentRenderer.inherit_from_ancestors, h1, h2]
      exact ih (fun p hp => hall p (List.mem_cons_of_mem page hp))
  · intro r st st1 st2 ctx ctx1 ctx2 slot nodelist cp ppk hcp hedit hinner hppk hprimed hwalk
    have hnotnone : (lookupPages st1 ppk).isNone = false := by
      cases hlp : lookupPages st1 ppk with
      | none => rw [hlp] at hprimed; cases hprimed
      | some idx => rfl
    unfold ContentRenderer.render_page_placeholder
    rw [hcp]
    dsimp only
    rw [hinner]
    try dsimp only
    rw [hppk, hedit]
    try dsimp only
    rw [hnotnone]
    try dsimp only
    rw [hwalk]
    rfl

/-- Witness for the amended C2: applying the unprimed-ancestor part to the
concrete grandparent on a fresh request state yields the `KeyError`
failure. -/
theorem C2_ancestor_walk_amended_witness :
    ContentRenderer.inherit_from_ancestors walkRenderer false "s" [walkPageG]
        RendererState.initial exampleCtx
      = (Except.error ("KeyError: " ++ toString walkPageG.pk),
         RendererState.initial, exampleCtx) :=
  C2_ancestor_walk_amended.2.1 walkRenderer false "s" walkPageG []
    RendererState.initial exampleCtx rfl
